import Mathlib

/-!
Shallow embedding of the AgenticRealm backend core (src/backend) in Lean 4.

Modelled modules:
  * core/state.py      — `Entity`, `GameState`, `GameState.log_event`
  * core/event_bus.py  — `GameEvent`, `EventBus` (publish / drain / clear)
  * core/engine.py     — `GameEngine._apply_npc_update`
  * game_session.py    — `GameSession.process_action` and the action handlers
  * ai_agents/agent_pool.py — `AgentPool.request`

Modelling conventions (applied uniformly, each noted again at its use site):
  * Python numbers (int / float) are modelled as rationals (`ℚ`).  Every
    arithmetic fact proved below is exact in binary floating point at the
    concrete inputs used by the witnesses and counterexamples.
  * Python dictionaries are insertion-ordered association lists with unique
    string keys; `dset` updates in place or appends, matching CPython.
  * Python exceptions escaping a handler are modelled with `Except String`;
    the message text is a label only.  Mutations performed before the raise
    persist, as in the source (`process_action` catches and keeps them).
  * Wall-clock values (`datetime.now()`, event timestamps) are not modelled;
    `completed_at` is tracked as a Boolean "was assigned" flag.
  * `random.random()` is an explicit `roll : ℚ` argument threaded into
    `process_action`, the injected-randomness reading of the draw.
  * Distances: the source compares `sqrt(sq) < r`.  For `sq ≥ 0` (always, a
    sum of squares) this holds iff `0 < r ∧ sq < r*r`, which is how `distLt`
    is defined; likewise `distLe` for `sqrt(sq) ≤ r`.
-/

/-- A Python runtime value as it appears in entity property bags, action
parameters, event payloads and AI results: `None`, a number (int/float,
modelled as `ℚ`), a string, a Boolean, a list, or a string-keyed dict. -/
inductive PValue where
  | none : PValue
  | num : ℚ → PValue
  | str : String → PValue
  | bool : Bool → PValue
  | list : List PValue → PValue
  | dict : List (String × PValue) → PValue
deriving Inhabited

/-- A Python dict with string keys: insertion-ordered association list. -/
abbrev PDict := List (String × PValue)

/-- `d.get(k)` distinguishing a missing key (`Option.none`). -/
def dget (d : PDict) (k : String) : Option PValue :=
  match d with
  | [] => Option.none
  | (k2, v) :: rest => if k2 = k then Option.some v else dget rest k

/-- `d.get(k, default)`. -/
def dgetD (d : PDict) (k : String) (v0 : PValue) : PValue :=
  (dget d k).getD v0

/-- `d.get(k)` with Python's implicit `None` default. -/
def dgetPy (d : PDict) (k : String) : PValue :=
  dgetD d k PValue.none

/-- `d[k] = v`: replace in place when present, else append — CPython's
insertion-order semantics. -/
def dset (d : PDict) (k : String) (v : PValue) : PDict :=
  match d with
  | [] => [(k, v)]
  | (k2, v2) :: rest => if k2 = k then (k2, v) :: rest else (k2, v2) :: dset rest k v

/-- `del d[k]`. -/
def ddel (d : PDict) (k : String) : PDict :=
  d.filter (fun p => p.1 ≠ k)

/-- `d.update(other)`: assign every key of `other` in order. -/
def dupdate (d other : PDict) : PDict :=
  other.foldl (fun acc p => dset acc p.1 p.2) d

/-- Python truthiness: `None`, `0`, `""`, `False`, `[]`, `{}` are falsy. -/
def pyTruthy : PValue → Bool
  | PValue.none => false
  | PValue.num q => q ≠ 0
  | PValue.str s => s ≠ ""
  | PValue.bool b => b
  | PValue.list l => ¬ l.isEmpty
  | PValue.dict d => ¬ d.isEmpty

/-- Python `a or b`: `a` when truthy, else `b`. -/
def pyOr (a b : PValue) : PValue :=
  if pyTruthy a then a else b

/-- Python `x is None`. -/
def PValue.isNone : PValue → Bool
  | PValue.none => true
  | _ => false

/-- A value usable in numeric arithmetic / ordering: numbers, and Booleans
(`True == 1`, `False == 0` in Python).  Anything else raises `TypeError`
at the call sites below, which the callers surface as `Except.error`. -/
def asNum : PValue → Option ℚ
  | PValue.num q => Option.some q
  | PValue.bool b => Option.some (if b then 1 else 0)
  | _ => Option.none

/-- Parse the integer strings accepted by Python `int(str)`: optional sign
and decimal digits (whitespace stripped). -/
def pyParseInt (s : String) : Option ℤ :=
  let t := s.trim
  if t = "" then Option.none
  else
    let (sign, digits) :=
      if t.startsWith "-" then ((-1 : ℤ), t.drop 1)
      else if t.startsWith "+" then ((1 : ℤ), t.drop 1)
      else ((1 : ℤ), t)
    if digits = "" ∨ ¬ digits.all Char.isDigit then Option.none
    else Option.some (sign * (digits.foldl (fun acc c => acc * 10 + (c.toNat - 48)) 0 : ℕ))

/-- Truncation toward zero, the behaviour of Python `int()` on a float:
T-division of the numerator by the (positive) denominator. -/
def qtrunc (q : ℚ) : ℤ :=
  q.num.tdiv (q.den : ℤ)

/-- `⌊q⌋` computed by floor division of the numerator by the (positive)
denominator. -/
def qfloor (q : ℚ) : ℤ :=
  q.num.fdiv (q.den : ℤ)

/-- Python `int(x)`: numbers truncate toward zero, Booleans map to 0/1,
strings parse as decimal integers; anything else raises. -/
def pyToInt : PValue → Option ℤ
  | PValue.num q => Option.some (qtrunc q)
  | PValue.bool b => Option.some (if b then 1 else 0)
  | PValue.str s => pyParseInt s
  | _ => Option.none

/-- Parse the plain decimal strings accepted by Python `float(str)`:
optional sign, digits, optional fractional part.  (Exponent and special
forms are not modelled; no theorem below exercises string conversion.) -/
def pyParseFloat (s : String) : Option ℚ :=
  let t := s.trim
  let (sign, body) :=
    if t.startsWith "-" then ((-1 : ℚ), t.drop 1)
    else if t.startsWith "+" then ((1 : ℚ), t.drop 1)
    else ((1 : ℚ), t)
  match body.splitOn "." with
  | [intPart] =>
      if intPart ≠ "" ∧ intPart.all Char.isDigit then
        Option.some (sign * ((intPart.foldl (fun acc c => acc * 10 + (c.toNat - 48)) 0 : ℕ) : ℚ))
      else Option.none
  | [intPart, fracPart] =>
      if (intPart ≠ "" ∨ fracPart ≠ "") ∧ intPart.all Char.isDigit ∧ fracPart.all Char.isDigit then
        let ip : ℚ := ((intPart.foldl (fun acc c => acc * 10 + (c.toNat - 48)) 0 : ℕ) : ℚ)
        let fp : ℚ := ((fracPart.foldl (fun acc c => acc * 10 + (c.toNat - 48)) 0 : ℕ) : ℚ)
        Option.some (sign * (ip + fp / ((10 : ℚ) ^ fracPart.length)))
      else Option.none
  | _ => Option.none

/-- Python `float(x)`: numbers pass through, Booleans map to 0/1, strings
parse; anything else raises. -/
def pyToFloat : PValue → Option ℚ
  | PValue.num q => Option.some q
  | PValue.bool b => Option.some (if b then 1 else 0)
  | PValue.str s => pyParseFloat s
  | _ => Option.none

/-- Python `round(q)` / `round(q, 0)`: round half to even (banker's
rounding) to an integer. -/
def pyRound (q : ℚ) : ℤ :=
  let f := qfloor q
  let r := q - f
  if r < 1/2 then f
  else if 1/2 < r then f + 1
  else if f % 2 = 0 then f else f + 1

/-- Python `round(q, 3)`. -/
def pyRound3 (q : ℚ) : ℚ :=
  ((pyRound (q * 1000) : ℤ) : ℚ) / 1000

/-- `sqrt(sq) < r` for a nonnegative radicand `sq`: the source computes
`((dx)**2 + (dy)**2) ** 0.5 < r`. -/
def distLt (sq r : ℚ) : Bool :=
  decide (0 < r) && decide (sq < r * r)

/-- `sqrt(sq) ≤ r` for a nonnegative radicand `sq`. -/
def distLe (sq r : ℚ) : Bool :=
  decide (0 ≤ r) && decide (sq ≤ r * r)

/-- Python `v == s` against a string literal: only a string compares equal. -/
def pvEqStr (v : PValue) (s : String) : Bool :=
  match v with
  | PValue.str t => t = s
  | _ => false

mutual
/-- Python `==` on the modelled values.  Numbers and Booleans compare
numerically (`True == 1`); cross-kind comparisons are `False`.  Dicts are
compared pointwise in order — CPython compares dicts key-set-insensitively
to order, but every dict comparison reached below compares dicts built in
identical construction order, where the two notions agree. -/
def pvEq : PValue → PValue → Bool
  | PValue.none, PValue.none => true
  | PValue.num a, PValue.num b => a = b
  | PValue.num a, PValue.bool b => a = (if b then (1 : ℚ) else 0)
  | PValue.bool a, PValue.num b => (if a then (1 : ℚ) else 0) = b
  | PValue.bool a, PValue.bool b => a = b
  | PValue.str a, PValue.str b => a = b
  | PValue.list a, PValue.list b => pvEqList a b
  | PValue.dict a, PValue.dict b => pvEqDict a b
  | _, _ => false

/-- Pointwise Python `==` on lists. -/
def pvEqList : List PValue → List PValue → Bool
  | [], [] => true
  | x :: xs, y :: ys => pvEq x y && pvEqList xs ys
  | _, _ => false

/-- Pointwise Python `==` on dict entry lists. -/
def pvEqDict : List (String × PValue) → List (String × PValue) → Bool
  | [], [] => true
  | (k1, v1) :: xs, (k2, v2) :: ys => k1 = k2 && pvEq v1 v2 && pvEqDict xs ys
  | _, _ => false
end

/-- `dict.get(key)` where the key is a runtime value: only string keys can
match (the modelled dicts are string-keyed); an unhashable key (list/dict)
raises in Python — no modelled call site passes one. -/
def dictLookupPy (d : PDict) (k : PValue) : PValue :=
  match k with
  | PValue.str s => dgetPy d s
  | _ => PValue.none

/-- Rendering of a value into an f-string (Python `str()`).  Numeric and
container formatting is modelled up to representation — no theorem below
constrains a message built from interpolation. -/
def pvStr : PValue → String
  | PValue.none => "None"
  | PValue.num q => toString q.num ++ (if q.den = 1 then "" else "/" ++ toString q.den)
  | PValue.str s => s
  | PValue.bool b => if b then "True" else "False"
  | PValue.list _ => "[...]"
  | PValue.dict _ => "\x7b...\x7d"

/-! ## core/event_bus.py -/

/-- `GameEvent` (core/event_bus.py).  The ISO timestamp field is wall-clock
time and is not modelled. -/
structure GameEvent where
  instance_id : String
  event_type : String
  data : PDict
  x : ℚ
  y : ℚ
deriving Inhabited

/-- `EventBus`: one FIFO queue per instance id (`_queues`, a defaultdict). -/
structure EventBus where
  queues : List (String × List GameEvent)
deriving Inhabited

/-- The empty bus (a fresh `EventBus()`). -/
def EventBus.empty : EventBus := ⟨[]⟩

/-- Look up a queue without creating it (`_queues.get(iid)`). -/
def EventBus.getQueue (bus : EventBus) (iid : String) : Option (List GameEvent) :=
  match bus.queues.find? (fun p => p.1 = iid) with
  | Option.some p => Option.some p.2
  | Option.none => Option.none

/-- Append an event to its instance's queue in the queue map; the
defaultdict creates an empty queue on first touch. -/
def busInsert (e : GameEvent) : List (String × List GameEvent) → List (String × List GameEvent)
  | [] => [(e.instance_id, [e])]
  | (iid, q) :: rest =>
      if iid = e.instance_id then (iid, q ++ [e]) :: rest else (iid, q) :: busInsert e rest

/-- `publish(event)`: append to the event's instance queue. -/
def EventBus.publish (bus : EventBus) (e : GameEvent) : EventBus :=
  ⟨busInsert e bus.queues⟩

/-- The sequence `drain_instance(iid)` returns: all pending events, or `[]`
when the queue is missing or empty. -/
def EventBus.drainResult (bus : EventBus) (iid : String) : List GameEvent :=
  match bus.getQueue iid with
  | Option.some q => q
  | Option.none => []

/-- The bus after `drain_instance(iid)`: the queue object is cleared in
place (the key stays, holding an empty deque). -/
def EventBus.drainState (bus : EventBus) (iid : String) : EventBus :=
  ⟨bus.queues.map (fun p => if p.1 = iid then (p.1, []) else p)⟩

/-- `clear_instance(iid)`: pop the queue entirely. -/
def EventBus.clearInstance (bus : EventBus) (iid : String) : EventBus :=
  ⟨bus.queues.filter (fun p => p.1 ≠ iid)⟩

/-- `pending_count(iid)`. -/
def EventBus.pendingCount (bus : EventBus) (iid : String) : ℕ :=
  (bus.drainResult iid).length

/-! ## core/state.py -/

/-- `Entity` (core/state.py): id, type, position, open property bag. -/
structure Entity where
  id : String
  type : String
  x : ℚ
  y : ℚ
  properties : PDict
deriving Inhabited

/-- The entity map of a `GameState`: a Python dict keyed by entity id. -/
abbrev EMap := List (String × Entity)

/-- `entities.get(eid)`. -/
def eget (es : EMap) (eid : String) : Option Entity :=
  match es with
  | [] => Option.none
  | (k, e) :: rest => if k = eid then Option.some e else eget rest eid

/-- `entities[eid] = e`: replace in place or append. -/
def eset (es : EMap) (eid : String) (e : Entity) : EMap :=
  match es with
  | [] => [(eid, e)]
  | (k, e2) :: rest => if k = eid then (k, e) :: rest else (k, e2) :: eset rest eid e

/-- Set one property of the entity stored at `eid` (an in-place
`entity.properties[k] = v` through the live reference in the source). -/
def writeProp (es : EMap) (eid : String) (k : String) (v : PValue) : EMap :=
  match eget es eid with
  | Option.some e => eset es eid { e with properties := dset e.properties k v }
  | Option.none => es

/-- Read one property of the entity stored at `eid`. -/
def readProp (es : EMap) (eid : String) (k : String) : Option PValue :=
  match eget es eid with
  | Option.some e => dget e.properties k
  | Option.none => Option.none

/-- An entry of `GameState.events`.  The wall-clock timestamp is not
modelled; `turn` is the state's turn counter at logging time. -/
structure LoggedEvent where
  turn : ℕ
  type : String
  data : PDict
deriving Inhabited

/-- `GameState` (core/state.py).  `created_at` (wall-clock) is omitted from
the property bag; `instance_id` models `_instance_id`. -/
structure GameState where
  turn : ℕ
  entities : EMap
  events : List LoggedEvent
  properties : PDict
  instance_id : Option String
deriving Inhabited

/-- `GameState.log_event(type, data)`: append to the in-memory event list
(no truncation occurs in the source), then, when `_instance_id` is set,
publish a `GameEvent` whose coordinates come from the entity named by
`data['npc_id'] or data['target_npc_id']` when that is a key of the entity
map, else `(0, 0)`.  The publish itself never raises. -/
def GameState.log_event (st : GameState) (bus : EventBus) (etype : String) (data : PDict) :
    GameState × EventBus :=
  let st2 := { st with events := st.events ++ [(⟨st.turn, etype, data⟩ : LoggedEvent)] }
  match st2.instance_id with
  | Option.none => (st2, bus)
  | Option.some iid =>
      let nid := pyOr (dgetPy data "npc_id") (dgetPy data "target_npc_id")
      let pos : ℚ × ℚ :=
        if pyTruthy nid then
          match nid with
          | PValue.str s =>
              match eget st2.entities s with
              | Option.some ent => (ent.x, ent.y)
              | Option.none => (0, 0)
          | _ => (0, 0)
        else (0, 0)
      (st2, bus.publish ⟨iid, etype, data, pos.1, pos.2⟩)

/-! ## core/engine.py — `GameEngine._apply_npc_update` -/

/-- The `for key in ("mood", "last_ai_message", "patrol_target")` loop of
`_apply_npc_update`, unrolled: each key present in the reply (whatever its
value, `None` included) replaces the NPC property. -/
def applyMsgKeys (result props : PDict) : PDict :=
  let p1 :=
    match dget result "mood" with
    | Option.some v => dset props "mood" v
    | Option.none => props
  let p2 :=
    match dget result "last_ai_message" with
    | Option.some v => dset p1 "last_ai_message" v
    | Option.none => p1
  match dget result "patrol_target" with
  | Option.some v => dset p2 "patrol_target" v
  | Option.none => p2

/-- `GameEngine._apply_npc_update(instance, npc_id, result)` restricted to
the entity map it mutates.  The source recognizes `trust_delta` (added to
`trust` and clamped to [0,1], rounded to 3 digits), and copies `mood`,
`last_ai_message` and `patrol_target` verbatim when present.  No other key
— in particular no `health_delta` — is read.  A `TypeError`/`ValueError`
in the trust step (non-convertible delta or non-numeric current trust)
aborts the call before any write, which the dispatcher swallows. -/
def apply_npc_update (es : EMap) (npc_id : String) (result : PDict) : EMap :=
  match eget es npc_id with
  | Option.none => es
  | Option.some npc =>
      let td := dgetPy result "trust_delta"
      if td.isNone then
        eset es npc_id { npc with properties := applyMsgKeys result npc.properties }
      else
        match pyToFloat td, asNum (dgetD npc.properties "trust" (PValue.num (1/2))) with
        | Option.some d, Option.some cur =>
            let newTrust := pyRound3 (max 0 (min 1 (cur + d)))
            let props := dset npc.properties "trust" (PValue.num newTrust)
            eset es npc_id { npc with properties := applyMsgKeys result props }
        | _, _ => es

/-! ## ai_agents/agent_pool.py -/

/-- `AIAgentRequest` (ai_agents/interfaces.py); roles are modelled by their
string values. -/
structure AIAgentRequest where
  agent_role : String
  action : String
  context : PDict
  request_id : String
  priority : String
deriving Inhabited

/-- `AIAgentResponse` (ai_agents/interfaces.py). -/
structure AIAgentResponse where
  request_id : String
  agent_role : String
  success : Bool
  action : String
  result : PDict
  reasoning : String
deriving Inhabited

/-- A registered worker: its name and its `handle_request` behaviour.  An
`Except.error` models `handle_request` raising. -/
structure Worker where
  agent_name : String
  handle : AIAgentRequest → Except String AIAgentResponse

/-- `AgentPool` state: `agents`, the round-robin cursors
(`current_agent_index`) and `request_counter`. -/
structure AgentPool where
  agents : List (String × List Worker)
  current_agent_index : List (String × ℕ)
  request_counter : ℕ

/-- Association-list lookup for the pool maps. -/
def alookup {α : Type} (l : List (String × α)) (k : String) : Option α :=
  match l.find? (fun p => p.1 = k) with
  | Option.some p => Option.some p.2
  | Option.none => Option.none

/-- Association-list assignment for the pool maps. -/
def aset {α : Type} (l : List (String × α)) (k : String) (v : α) : List (String × α) :=
  match l with
  | [] => [(k, v)]
  | (k2, v2) :: rest => if k2 = k then (k2, v) :: rest else (k2, v2) :: aset rest k v

/-- `AgentPool.request(role, action, context, priority)`.

Returns `Except.error` for an uncaught `IndexError` (a cursor left beyond
the shrunk worker list by `unregister_agent` — registration always
initializes the cursor at 0, so the cursor lookup itself cannot miss in a
reachable pool; the model defaults a missing cursor to 0).  Otherwise
`.ok (pool, resp?)` where `resp? = Option.none` both when no worker is
registered for the role and when the selected worker's `handle_request`
raised — the exception is caught and `None` is returned, NOT a
`success=false` response. -/
def AgentPool.request (p : AgentPool) (role : String) (action : String)
    (context : PDict) (priority : String) :
    Except String (AgentPool × Option AIAgentResponse) :=
  match alookup p.agents role with
  | Option.none => Except.ok (p, Option.none)
  | Option.some workers =>
      if workers.isEmpty then Except.ok (p, Option.none)
      else
        let idx := (alookup p.current_agent_index role).getD 0
        match workers.get? idx with
        | Option.none => Except.error "IndexError: list index out of range"
        | Option.some agent =>
            let p2 : AgentPool :=
              { p with
                current_agent_index :=
                  aset p.current_agent_index role ((idx + 1) % workers.length),
                request_counter := p.request_counter + 1 }
            let req : AIAgentRequest :=
              ⟨role, action, context, "req_" ++ toString p2.request_counter, priority⟩
            match agent.handle req with
            | Except.ok resp => Except.ok (p2, Option.some resp)
            | Except.error _ => Except.ok (p2, Option.none)

/-! ## game_session.py — `GameSession` -/

/-- The scenario template constraints a session reads (`Scenario` in
scenarios.py).  Sessions whose `scenario` is `None` raise `AttributeError`
on their very first `process_action` (line 102 dereferences
`self.scenario.max_turns` before the `try`), so only sessions with a
template are modelled. -/
structure Scenario where
  max_turns : ℕ
  world_width : ℚ
  world_height : ℚ
deriving Inhabited

/-- An entry of `GameSession.actions_taken`. -/
structure ActionRecord where
  turn : ℕ
  action : String
  params : PDict
deriving Inhabited

/-- `GameSession` (game_session.py).  `created_at`/`completed_at` are
wall-clock; only the fact that `completed_at` was assigned is kept. -/
structure GameSession where
  game_id : String
  agent_id : String
  status : String
  turn : ℕ
  state : GameState
  actions_taken : List ActionRecord
  scenario : Scenario
  completed_at_set : Bool
deriving Inhabited

/-- The result triple of one handler, or the exception it raised.  The
session/bus travelling with it carry every mutation made before a raise,
as CPython's reference semantics do. -/
abbrev HOut := Except String (Bool × String × PDict)

/-- `self.state.log_event(...)` from inside a session. -/
def GameSession.logEvent (s : GameSession) (bus : EventBus) (etype : String) (data : PDict) :
    GameSession × EventBus :=
  let r := s.state.log_event bus etype data
  ({ s with state := r.1 }, r.2)

/-- `GameSession._resolve_npc(params)`: the first truthy of `npc_id`,
`store_id`, `entity_id` looked up in the entity map, together with the key
it was found under (the source mutates the found object through a live
reference; the key names that slot).  A non-string id is not a key of the
string-keyed map.  (An unhashable id — a list or dict — would raise in
CPython; no claim exercises one.) -/
def resolve_npc (st : GameState) (params : PDict) : Option (String × Entity) :=
  let eid := pyOr (dgetPy params "npc_id") (pyOr (dgetPy params "store_id") (dgetPy params "entity_id"))
  if pyTruthy eid then
    match eid with
    | PValue.str i =>
        match eget st.entities i with
        | Option.some e => Option.some (i, e)
        | Option.none => Option.none
    | _ => Option.none
  else Option.none

/-- The `new_x < 0 or new_x > world_w or new_y < 0 or new_y > world_h`
test of `_handle_move`, with Python's left-to-right short-circuit: a
non-numeric bound raises only when its comparison is reached. -/
def boundsCheck (nx ny : ℚ) (wv hv : PValue) : Except String Bool :=
  if nx < 0 then Except.ok true
  else
    match asNum wv with
    | Option.none => Except.error "TypeError: world_width comparison"
    | Option.some w =>
        if nx > w then Except.ok true
        else if ny < 0 then Except.ok true
        else
          match asNum hv with
          | Option.none => Except.error "TypeError: world_height comparison"
          | Option.some hh => Except.ok (ny > hh)

/-- The proximity loop of `_handle_move` (lines 207–232): walk the entity
map in insertion order, skip the agent, and on the first entity whose
radius covers the target point resolve a hazard hit or an exit; entities
inside whose type is neither fall through to the next.  `Option.none`
means the loop completed and the move commits. -/
def moveScan (s : GameSession) (bus : EventBus) (agent : Entity) (nx ny : ℚ) :
    List (String × Entity) → GameSession × EventBus × Option HOut
  | [] => (s, bus, Option.none)
  | (eid, entity) :: rest =>
    if eid = s.agent_id then moveScan s bus agent nx ny rest
    else
      let sq := (nx - entity.x) * (nx - entity.x) + (ny - entity.y) * (ny - entity.y)
      match asNum (dgetD entity.properties "radius" (PValue.num 15)) with
      | Option.none => (s, bus, Option.some (Except.error "TypeError: dist < radius"))
      | Option.some radius =>
        if distLt sq radius then
          if entity.type = "hazard" then
            let dmgVal := dgetD entity.properties "damage" (PValue.num 10)
            match asNum dmgVal, asNum (dgetD agent.properties "health" (PValue.num 100)) with
            | Option.some damage, Option.some h =>
                let newH := h - damage
                let s2 := { s with state := { s.state with
                  entities := writeProp s.state.entities s.agent_id "health" (PValue.num newH) } }
                let r := s2.logEvent bus "hazard_hit"
                  [("entity_id", PValue.str eid), ("damage", dmgVal)]
                if newH ≤ 0 then
                  ({ r.1 with status := "failed" }, r.2,
                    Option.some (Except.ok (false,
                      "Eliminated by hazard '" ++ eid ++ "'. Health reached 0.", [])))
                else
                  (r.1, r.2, Option.some (Except.ok (false,
                    "Hit hazard '" ++ eid ++ "'! Health: " ++ pvStr (PValue.num newH), [])))
            | _, _ => (s, bus, Option.some (Except.error "TypeError: health - damage"))
          else if entity.type = "exit" then
            let agent2 := { agent with x := nx, y := ny }
            let s2 := { s with
              status := "completed"
              completed_at_set := true
              state := { s.state with entities := eset s.state.entities s.agent_id agent2 } }
            match asNum (dgetD s2.state.properties "max_turns"
                (PValue.num (s.scenario.max_turns : ℚ))) with
            | Option.none => (s2, bus, Option.some (Except.error "TypeError: turns_used / max_t"))
            | Option.some mt =>
              if mt = 0 then (s2, bus, Option.some (Except.error "ZeroDivisionError"))
              else
                let score := max (0 : ℚ) (100 - ((s.turn : ℚ) / mt) * 50)
                let s3 := { s2 with state := { s2.state with
                  entities := writeProp s2.state.entities s.agent_id "score" (PValue.num score) } }
                let r := s3.logEvent bus "exit_reached"
                  [("entity_id", PValue.str eid), ("score", PValue.num score)]
                (r.1, r.2, Option.some (Except.ok (true,
                  "Exit reached via '" ++ eid ++ "'! Scenario complete.",
                  [("score", PValue.num score)])))
          else moveScan s bus agent nx ny rest
        else moveScan s bus agent nx ny rest

/-- `GameSession._handle_move(params)`. -/
def handle_move (s : GameSession) (bus : EventBus) (params : PDict) :
    GameSession × EventBus × HOut :=
  let direction := dgetPy params "direction"
  if ¬ (pvEqStr direction "up" || pvEqStr direction "down" ||
        pvEqStr direction "left" || pvEqStr direction "right") then
    (s, bus, Except.ok (false, "Invalid direction: " ++ pvStr direction ++
      ". Must be one of ['up', 'down', 'left', 'right']", []))
  else
    match eget s.state.entities s.agent_id with
    | Option.none => (s, bus, Except.ok (false, "Agent entity not found in world state", []))
    | Option.some agent =>
      match pyToInt (dgetD params "distance" (PValue.num 10)) with
      | Option.none => (s, bus, Except.error "ValueError: int(distance)")
      | Option.some md =>
        let d : ℚ := (md : ℚ)
        let nx : ℚ :=
          if pvEqStr direction "left" then agent.x - d
          else if pvEqStr direction "right" then agent.x + d
          else agent.x
        let ny : ℚ :=
          if pvEqStr direction "up" then agent.y - d
          else if pvEqStr direction "down" then agent.y + d
          else agent.y
        match boundsCheck nx ny
            (dgetD s.state.properties "world_width" (PValue.num s.scenario.world_width))
            (dgetD s.state.properties "world_height" (PValue.num s.scenario.world_height)) with
        | Except.error e => (s, bus, Except.error e)
        | Except.ok true => (s, bus, Except.ok (false, "Movement out of world bounds", []))
        | Except.ok false =>
          match moveScan s bus agent nx ny s.state.entities with
          | (s2, bus2, Option.some out) => (s2, bus2, out)
          | (s2, bus2, Option.none) =>
            let agent2 := { agent with x := nx, y := ny }
            let s3 := { s2 with state := { s2.state with
              entities := eset s2.state.entities s2.agent_id agent2 } }
            (s3, bus2, Except.ok (true,
              "Moved " ++ pvStr direction ++ " to (" ++ pvStr (PValue.num nx) ++ ", " ++
                pvStr (PValue.num ny) ++ ")",
              [("position", PValue.dict [("x", PValue.num nx), ("y", PValue.num ny)])]))

/-- Stable insertion into a list sorted by the first component. -/
def insertBySq (x : ℚ × PValue) : List (ℚ × PValue) → List (ℚ × PValue)
  | [] => [x]
  | y :: ys => if x.1 < y.1 then x :: y :: ys else y :: insertBySq x ys

/-- Stable insertion sort by the first component. -/
def sortBySq (l : List (ℚ × PValue)) : List (ℚ × PValue) :=
  l.foldr insertBySq []

/-- `GameSession._handle_observe(params)`.  The source reports each
neighbour's `round(sqrt(sq), 1)` and sorts by that rounded float; square
roots are irrational, so the embedding carries the squared distance in the
`distance` field and sorts by it — the same order as by the exact
distance (the rounded sort key can merge near ties; no claim below reads
this field or the order). -/
def handle_observe (s : GameSession) (bus : EventBus) (params : PDict) :
    GameSession × EventBus × HOut :=
  match eget s.state.entities s.agent_id with
  | Option.none => (s, bus, Except.ok (false, "Agent entity not found", []))
  | Option.some agent =>
    match pyToInt (dgetD params "radius" (PValue.num 150)) with
    | Option.none => (s, bus, Except.error "ValueError: int(radius)")
    | Option.some radius =>
      let entries := s.state.entities.filterMap (fun p =>
        if p.1 = s.agent_id then Option.none
        else
          let sq := (p.2.x - agent.x) * (p.2.x - agent.x) + (p.2.y - agent.y) * (p.2.y - agent.y)
          if distLe sq (radius : ℚ) then
            Option.some (sq, PValue.dict
              [("id", PValue.str p.1), ("type", PValue.str p.2.type),
               ("distance", PValue.num sq),
               ("position", PValue.dict [("x", PValue.num p.2.x), ("y", PValue.num p.2.y)]),
               ("properties", PValue.dict p.2.properties)])
          else Option.none)
      let nearby := (sortBySq entries).map Prod.snd
      (s, bus, Except.ok (true,
        "Observed " ++ toString nearby.length ++ " entities within radius " ++ toString radius,
        [("entities", PValue.list nearby),
         ("agent_position", PValue.dict [("x", PValue.num agent.x), ("y", PValue.num agent.y)])]))

/-- `GameSession._handle_talk(params)`.  The source hands the
`default_response` property back verbatim as the message object; the
embedding renders it into the string message slot via `pvStr`. -/
def handle_talk (s : GameSession) (bus : EventBus) (params : PDict) :
    GameSession × EventBus × HOut :=
  match resolve_npc s.state params with
  | Option.none => (s, bus, Except.ok (false, "Target entity not found. Provide 'npc_id'.", []))
  | Option.some npcEntry =>
    let npc := npcEntry.2
    let message := dgetD params "message" (PValue.str "")
    let r := s.logEvent bus "talk"
      [("agent_id", PValue.str s.agent_id), ("npc_id", PValue.str npc.id), ("message", message)]
    let response := dgetD npc.properties "default_response"
      (PValue.str (pvStr (dgetD npc.properties "name" (PValue.str npc.id)) ++ " acknowledges you."))
    (r.1, r.2, Except.ok (true, pvStr response,
      [("npc_id", PValue.str npc.id), ("npc_response", response)]))

/-- `GameSession._handle_negotiate(params)` (lines 298–324).  Note the
order of the source: the `negotiate` event is logged BEFORE the item is
looked up in the NPC's inventory, so an unknown `item_id` still logs and
publishes. -/
def handle_negotiate (s : GameSession) (bus : EventBus) (params : PDict) :
    GameSession × EventBus × HOut :=
  match resolve_npc s.state params with
  | Option.none =>
      (s, bus, Except.ok (false, "Target store/NPC not found. Provide 'store_id' or 'npc_id'.", []))
  | Option.some npcEntry =>
    let npc := npcEntry.2
    let item_id := dgetPy params "item_id"
    let offered := dgetPy params "offered_price"
    if item_id.isNone || offered.isNone then
      (s, bus, Except.ok (false, "Provide 'item_id' and 'offered_price'.", []))
    else
      let r := s.logEvent bus "negotiate"
        [("agent_id", PValue.str s.agent_id), ("npc_id", PValue.str npc.id),
         ("item_id", item_id), ("offered_price", offered)]
      let s2 := r.1
      let bus2 := r.2
      let multiplier := dgetD npc.properties "pricing_multiplier" (PValue.num 1)
      match dgetD npc.properties "inventory" (PValue.dict []) with
      | PValue.dict inv =>
        let item := dictLookupPy inv item_id
        if ¬ pyTruthy item then
          (s2, bus2, Except.ok (false,
            "Item '" ++ pvStr item_id ++ "' not found in " ++ npc.id ++ "'s inventory.", []))
        else
          match item with
          | PValue.dict idict =>
            match asNum (dgetD idict "value" (PValue.num 100)), asNum multiplier with
            | Option.some v, Option.some m =>
              let base := v * m
              match asNum offered with
              | Option.some p =>
                let accepted := decide (p ≥ base * (8/10))
                (s2, bus2, Except.ok (accepted,
                  (if accepted then "Offer accepted at " ++ pvStr offered ++ " gold."
                   else "Offer refused. Counter-price: " ++
                     pvStr (PValue.num ((pyRound base : ℤ) : ℚ)) ++ " gold."),
                  [("accepted", PValue.bool accepted), ("item_id", item_id),
                   ("counter_price", PValue.num ((pyRound base : ℤ) : ℚ))]))
              | Option.none => (s2, bus2, Except.error "TypeError: offered_price >= base * 0.8")
            | _, _ => (s2, bus2, Except.error "TypeError: value * multiplier")
          | _ => (s2, bus2, Except.error "AttributeError: item.get")
      | _ => (s2, bus2, Except.error "AttributeError: inventory.get")

/-- `GameSession._handle_buy(params)` (lines 326–357).  The mutations run
through the live entity references; the embedding performs them as
sequential updates of the entity map.  A `target_item_id` match flips the
session to `completed` and assigns the buy score. -/
def handle_buy (s : GameSession) (bus : EventBus) (params : PDict) :
    GameSession × EventBus × HOut :=
  match resolve_npc s.state params with
  | Option.none => (s, bus, Except.ok (false, "Store not found. Provide 'store_id'.", []))
  | Option.some storeEntry =>
    let skey := storeEntry.1
    let store := storeEntry.2
    let item_id := dgetPy params "item_id"
    if ¬ pyTruthy item_id then (s, bus, Except.ok (false, "Provide 'item_id'.", []))
    else
      match dgetD store.properties "inventory" (PValue.dict []) with
      | PValue.dict inv =>
        let item := dictLookupPy inv item_id
        if ¬ pyTruthy item then
          (s, bus, Except.ok (false, "Item '" ++ pvStr item_id ++ "' not in store inventory.", []))
        else
          match item with
          | PValue.dict idict =>
            match asNum (dgetD idict "value" (PValue.num 100)),
                  asNum (dgetD store.properties "pricing_multiplier" (PValue.num 1)) with
            | Option.some v, Option.some m =>
              let price : ℤ := pyRound (v * m)
              match eget s.state.entities s.agent_id with
              | Option.none => (s, bus, Except.error "AttributeError: NoneType agent")
              | Option.some agent =>
                match asNum (dgetD agent.properties "gold" (PValue.num 0)) with
                | Option.none => (s, bus, Except.error "TypeError: gold < price")
                | Option.some gold =>
                  if gold < (price : ℚ) then
                    (s, bus, Except.ok (false, "Insufficient gold. Need " ++ toString price ++
                      ", have " ++ pvStr (PValue.num gold) ++ ".", []))
                  else
                    let es1 := writeProp s.state.entities s.agent_id "gold"
                      (PValue.num (gold - (price : ℚ)))
                    match (match readProp es1 s.agent_id "inventory" with
                           | Option.none => Except.ok ([] : List PValue)
                           | Option.some (PValue.list l) => Except.ok l
                           | Option.some _ => Except.error "AttributeError: inventory.append") with
                    | Except.error e =>
                        ({ s with state := { s.state with entities := es1 } }, bus, Except.error e)
                    | Except.ok ainv =>
                      let es2 := writeProp es1 s.agent_id "inventory"
                        (PValue.list (ainv ++ [PValue.dict (dset idict "item_id" item_id)]))
                      let es3 :=
                        match item_id with
                        | PValue.str iid => writeProp es2 skey "inventory" (PValue.dict (ddel inv iid))
                        | _ => es2
                      let s2 := { s with state := { s.state with entities := es3 } }
                      let r := s2.logEvent bus "buy"
                        [("agent_id", PValue.str s.agent_id), ("store_id", PValue.str store.id),
                         ("item_id", item_id), ("price", PValue.num (price : ℚ))]
                      let s3 := r.1
                      let bus2 := r.2
                      let target := dgetPy s3.state.properties "target_item_id"
                      let afterTarget : GameSession × EventBus × Option String :=
                        if pyTruthy target ∧ pvEq item_id target then
                          let s4 := { s3 with status := "completed", completed_at_set := true }
                          match asNum (dgetD s4.state.properties "max_turns" (PValue.num 150)) with
                          | Option.none => (s4, bus2, Option.some "TypeError: max(1, max_turns)")
                          | Option.some mt =>
                            let score := max (0 : ℚ) (100 - ((s.turn : ℚ) / (max 1 mt)) * 30)
                            let es4 := writeProp s4.state.entities s.agent_id "score" (PValue.num score)
                            ({ s4 with state := { s4.state with entities := es4 } }, bus2, Option.none)
                        else (s3, bus2, Option.none)
                      match afterTarget with
                      | (s5, bus5, Option.some e) => (s5, bus5, Except.error e)
                      | (s5, bus5, Option.none) =>
                        (s5, bus5, Except.ok (true,
                          "Bought '" ++ pvStr (dgetD idict "name" item_id) ++ "' for " ++
                            toString price ++ " gold.",
                          [("item", item), ("gold_remaining", PValue.num (gold - (price : ℚ)))]))
            | _, _ => (s, bus, Except.error "TypeError: value * pricing_multiplier")
          | _ => (s, bus, Except.error "AttributeError: item.get")
      | _ => (s, bus, Except.error "AttributeError: inventory.get")

/-- `GameSession._handle_hire(params)` (lines 359–376). -/
def handle_hire (s : GameSession) (bus : EventBus) (params : PDict) :
    GameSession × EventBus × HOut :=
  match resolve_npc s.state params with
  | Option.none => (s, bus, Except.ok (false, "NPC not found. Provide 'npc_id'.", []))
  | Option.some npcEntry =>
    let nkey := npcEntry.1
    let npc := npcEntry.2
    let cost := dgetPy npc.properties "hiring_cost"
    if cost.isNone then
      (s, bus, Except.ok (false, "'" ++ npc.id ++ "' is not available for hire.", []))
    else
      match eget s.state.entities s.agent_id with
      | Option.none => (s, bus, Except.error "AttributeError: NoneType agent")
      | Option.some agent =>
        match asNum (dgetD agent.properties "gold" (PValue.num 0)), asNum cost with
        | Option.some gold, Option.some c =>
          if gold < c then
            (s, bus, Except.ok (false, "Cannot afford. Hire cost: " ++ pvStr cost ++
              ", have " ++ pvStr (PValue.num gold) ++ ".", []))
          else
            let es1 := writeProp s.state.entities s.agent_id "gold" (PValue.num (gold - c))
            let es2 := writeProp es1 nkey "hired_by" (PValue.str s.agent_id)
            let s2 := { s with state := { s.state with entities := es2 } }
            let r := s2.logEvent bus "hire"
              [("agent_id", PValue.str s.agent_id), ("npc_id", PValue.str npc.id), ("cost", cost)]
            (r.1, r.2, Except.ok (true,
              "Hired '" ++ pvStr (dgetD npc.properties "name" (PValue.str npc.id)) ++ "' for " ++
                pvStr cost ++ " gold.",
              [("npc_id", PValue.str npc.id), ("gold_remaining", PValue.num (gold - c))]))
        | _, _ => (s, bus, Except.error "TypeError: gold < cost")

/-- `GameSession._handle_steal(params)` (lines 378–412).  `roll` is the
`random.random()` draw.  Note the failure branch: health is set to
`max(0, health - 20)` and the session status is NOT touched anywhere in
this handler. -/
def handle_steal (s : GameSession) (bus : EventBus) (params : PDict) (roll : ℚ) :
    GameSession × EventBus × HOut :=
  match resolve_npc s.state params with
  | Option.none => (s, bus, Except.ok (false, "Store not found. Provide 'store_id'.", []))
  | Option.some storeEntry =>
    let skey := storeEntry.1
    let store := storeEntry.2
    let item_id := dgetPy params "item_id"
    if ¬ pyTruthy item_id then (s, bus, Except.ok (false, "Provide 'item_id'.", []))
    else
      match dgetD store.properties "inventory" (PValue.dict []) with
      | PValue.dict inv =>
        let item := dictLookupPy inv item_id
        if ¬ pyTruthy item then
          (s, bus, Except.ok (false, "Item '" ++ pvStr item_id ++ "' not in store inventory.", []))
        else
          let guards := s.state.entities.filter (fun p =>
            p.2.type = "npc" && pvEqStr (dgetPy p.2.properties "job") "guard" &&
            distLt ((p.2.x - store.x) * (p.2.x - store.x) + (p.2.y - store.y) * (p.2.y - store.y))
              100)
          let g : ℚ := (guards.length : ℚ)
          let success_chance := max (1/10) (7/10 - g * (2/10))
          let success := decide (roll < success_chance)
          let r := s.logEvent bus "steal_attempt"
            [("agent_id", PValue.str s.agent_id), ("store_id", PValue.str store.id),
             ("item_id", item_id), ("success", PValue.bool success),
             ("guards_nearby", PValue.num g)]
          let s2 := r.1
          let bus2 := r.2
          if success then
            match eget s2.state.entities s2.agent_id with
            | Option.none => (s2, bus2, Except.error "AttributeError: NoneType agent")
            | Option.some agent =>
              match item with
              | PValue.dict idict =>
                match (match dget agent.properties "inventory" with
                       | Option.none => Except.ok ([] : List PValue)
                       | Option.some (PValue.list l) => Except.ok l
                       | Option.some _ => Except.error "AttributeError: inventory.append") with
                | Except.error e => (s2, bus2, Except.error e)
                | Except.ok ainv =>
                  let es1 := writeProp s2.state.entities s2.agent_id "inventory"
                    (PValue.list (ainv ++ [PValue.dict (dset idict "item_id" item_id)]))
                  let es2 :=
                    match item_id with
                    | PValue.str iid => writeProp es1 skey "inventory" (PValue.dict (ddel inv iid))
                    | _ => es1
                  let s3 := { s2 with state := { s2.state with entities := es2 } }
                  (s3, bus2, Except.ok (true,
                    "Successfully stole '" ++ pvStr (dgetD idict "name" item_id) ++ "'.",
                    [("item", item)]))
              | _ => (s2, bus2, Except.error "TypeError: mapping unpacking")
          else
            match eget s2.state.entities s2.agent_id with
            | Option.none => (s2, bus2, Except.error "AttributeError: NoneType agent")
            | Option.some agent =>
              match asNum (dgetD agent.properties "health" (PValue.num 100)) with
              | Option.none => (s2, bus2, Except.error "TypeError: health - penalty")
              | Option.some h =>
                let newH := max (0 : ℚ) (h - 20)
                let s3 := { s2 with state := { s2.state with
                  entities := writeProp s2.state.entities s2.agent_id "health" (PValue.num newH) } }
                (s3, bus2, Except.ok (false, "Steal failed! Caught by guard. Health -20.",
                  [("health", PValue.num newH)]))
      | _ => (s, bus, Except.error "AttributeError: inventory.get")

/-- The list comprehension of `_handle_trade`: the agent-inventory entries
whose `item_id` compares `==` to the target; a non-dict entry raises. -/
def filterTradeItems (target : PValue) : List PValue → Except String (List PValue)
  | [] => Except.ok []
  | x :: xs =>
    match x with
    | PValue.dict d =>
        match filterTradeItems target xs with
        | Except.ok rest =>
            Except.ok (if pvEq (dgetPy d "item_id") target then x :: rest else rest)
        | Except.error e => Except.error e
    | _ => Except.error "AttributeError: element.get"

/-- Python `list.remove(x)`: drop the first element comparing `==` to `x`. -/
def pyListRemove (l : List PValue) (x : PValue) : List PValue :=
  match l with
  | [] => []
  | y :: ys => if pvEq y x then ys else y :: pyListRemove ys x

/-- `GameSession._handle_trade(params)` (lines 414–448).  (A numeric
`give_item_id` would become a non-string dict key in CPython; the modelled
dicts are string-keyed and no claim exercises that corner.) -/
def handle_trade (s : GameSession) (bus : EventBus) (params : PDict) :
    GameSession × EventBus × HOut :=
  match resolve_npc s.state params with
  | Option.none => (s, bus, Except.ok (false, "NPC not found. Provide 'npc_id'.", []))
  | Option.some npcEntry =>
    let nkey := npcEntry.1
    let npc := npcEntry.2
    let give_item_id := dgetPy params "give_item_id"
    let receive_item_id := dgetPy params "receive_item_id"
    if ¬ pyTruthy give_item_id || ¬ pyTruthy receive_item_id then
      (s, bus, Except.ok (false, "Provide 'give_item_id' and 'receive_item_id'.", []))
    else
      match eget s.state.entities s.agent_id with
      | Option.none => (s, bus, Except.error "AttributeError: NoneType agent")
      | Option.some agent =>
        match dgetD agent.properties "inventory" (PValue.list []) with
        | PValue.list ainv =>
          match filterTradeItems give_item_id ainv with
          | Except.error e => (s, bus, Except.error e)
          | Except.ok give_items =>
            match give_items with
            | [] => (s, bus, Except.ok (false,
                "You don't have item '" ++ pvStr give_item_id ++ "' to trade.", []))
            | gi :: _ =>
              match dgetD npc.properties "inventory" (PValue.dict []) with
              | PValue.dict ninv =>
                let receive_item := dictLookupPy ninv receive_item_id
                if ¬ pyTruthy receive_item then
                  (s, bus, Except.ok (false,
                    "NPC doesn't have item '" ++ pvStr receive_item_id ++ "'.", []))
                else
                  let give_val :=
                    match gi with
                    | PValue.dict gd => dgetD gd "value" (PValue.num 0)
                    | _ => PValue.none
                  match receive_item with
                  | PValue.dict rd =>
                    match asNum give_val, asNum (dgetD rd "value" (PValue.num 0)) with
                    | Option.some gv, Option.some rv =>
                      let accepted := decide (gv ≥ rv * (8/10))
                      let r := s.logEvent bus "trade_proposal"
                        [("agent_id", PValue.str s.agent_id), ("npc_id", PValue.str npc.id),
                         ("give_item_id", give_item_id), ("receive_item_id", receive_item_id),
                         ("accepted", PValue.bool accepted)]
                      let s2 := r.1
                      let bus2 := r.2
                      if accepted then
                        let ainv2 := pyListRemove ainv gi ++ [PValue.dict (dset rd "item_id" receive_item_id)]
                        let es1 := writeProp s2.state.entities s2.agent_id "inventory"
                          (PValue.list ainv2)
                        let es2 :=
                          match receive_item_id, give_item_id with
                          | PValue.str rid, PValue.str gid =>
                              writeProp es1 nkey "inventory"
                                (PValue.dict (dset (ddel ninv rid) gid gi))
                          | PValue.str rid, _ =>
                              writeProp es1 nkey "inventory" (PValue.dict (ddel ninv rid))
                          | _, _ => es1
                        let s3 := { s2 with state := { s2.state with entities := es2 } }
                        (s3, bus2, Except.ok (true,
                          "Trade accepted! Gave '" ++ pvStr give_item_id ++ "', received '" ++
                            pvStr receive_item_id ++ "'.",
                          [("gave", give_item_id), ("received", receive_item_id)]))
                      else
                        (s2, bus2, Except.ok (false,
                          "Trade refused. Your offer undervalues what you want.",
                          [("accepted", PValue.bool false)]))
                    | _, _ => (s, bus, Except.error "TypeError: value comparison")
                  | _ => (s, bus, Except.error "AttributeError: receive_item.get")
              | _ => (s, bus, Except.error "AttributeError: npc inventory.get")
        | _ => (s, bus, Except.error "TypeError: inventory not iterable")

/-- `GameSession._handle_interact(params)` (lines 450–471). -/
def handle_interact (s : GameSession) (bus : EventBus) (params : PDict) :
    GameSession × EventBus × HOut :=
  let entity_id := dgetPy params "entity_id"
  if ¬ pyTruthy entity_id then (s, bus, Except.ok (false, "Provide 'entity_id'.", []))
  else
    match (match entity_id with
           | PValue.str i => eget s.state.entities i
           | _ => Option.none) with
    | Option.none =>
        (s, bus, Except.ok (false, "Entity '" ++ pvStr entity_id ++ "' not found in world.", []))
    | Option.some entity =>
      let action_type := dgetD params "action_type" (PValue.str "use")
      let extra := params.filter (fun p => p.1 ≠ "entity_id" ∧ p.1 ≠ "action_type")
      let r := s.logEvent bus "interact"
        [("agent_id", PValue.str s.agent_id), ("entity_id", entity_id),
         ("entity_type", PValue.str entity.type), ("action_type", action_type),
         ("extra_params", PValue.dict extra)]
      (r.1, r.2, Except.ok (true,
        "Interacted with '" ++ pvStr entity_id ++ "' (" ++ entity.type ++ ") via '" ++
          pvStr action_type ++ "'.",
        [("entity_id", entity_id), ("entity_type", PValue.str entity.type),
         ("properties", PValue.dict entity.properties)]))

/-- The nine verbs `process_action` dispatches on (lines 130–147). -/
def handledVerbs : List String :=
  ["move", "observe", "talk", "negotiate", "buy", "hire", "steal", "trade", "interact"]

/-- What one `process_action` call returns together with the session and
bus it leaves behind. -/
structure ActionResult where
  sess : GameSession
  bus : EventBus
  success : Bool
  message : String
  update : PDict

/-- `GameSession.process_action(action, params)` (lines 93–169).
`roll` is the `random.random()` draw consumed by a `steal` dispatch.
The `prompt_summary` feed logging writes only to the external global feed
store (store/feed.py) inside its own try/except; it touches neither the
session, the world state nor the bus and is not modelled.  A handler
exception is caught by the surrounding `try` and reported as
`"Error processing action: …"` with the mutations made so far kept. -/
def GameSession.process_action (s : GameSession) (bus : EventBus) (action : String)
    (params : PDict) (roll : ℚ) : ActionResult :=
  if s.status ≠ "in_progress" then ⟨s, bus, false, "Game is not in progress", []⟩
  else if s.scenario.max_turns ≤ s.turn then
    ⟨{ s with status := "completed" }, bus, false, "Maximum turns reached", []⟩
  else
    let s1 := { s with
      turn := s.turn + 1
      actions_taken := s.actions_taken ++ [(⟨s.turn + 1, action, params⟩ : ActionRecord)] }
    if handledVerbs.contains action then
      let hr : GameSession × EventBus × HOut :=
        if action = "move" then handle_move s1 bus params
        else if action = "observe" then handle_observe s1 bus params
        else if action = "talk" then handle_talk s1 bus params
        else if action = "negotiate" then handle_negotiate s1 bus params
        else if action = "buy" then handle_buy s1 bus params
        else if action = "hire" then handle_hire s1 bus params
        else if action = "steal" then handle_steal s1 bus params roll
        else if action = "trade" then handle_trade s1 bus params
        else handle_interact s1 bus params
      let s2 := hr.1
      let bus2 := hr.2.1
      match hr.2.2 with
      | Except.error e => ⟨s2, bus2, false, "Error processing action: " ++ e, []⟩
      | Except.ok out =>
        let stats : PDict :=
          [("actions_taken", PValue.num (s2.actions_taken.length : ℚ)),
           ("health", match eget s2.state.entities s2.agent_id with
                      | Option.some a => dgetPy a.properties "health"
                      | Option.none => PValue.none),
           ("score", match eget s2.state.entities s2.agent_id with
                     | Option.some a => dgetPy a.properties "score"
                     | Option.none => PValue.none),
           ("turn", PValue.num (s2.turn : ℚ))]
        match dget out.2.2 "stats" with
        | Option.none => ⟨s2, bus2, out.1, out.2.1, out.2.2 ++ [("stats", PValue.dict stats)]⟩
        | Option.some (PValue.dict d) =>
            ⟨s2, bus2, out.1, out.2.1, dset out.2.2 "stats" (PValue.dict (dupdate d stats))⟩
        | Option.some _ =>
            ⟨s2, bus2, false, "Error processing action: AttributeError: stats.update", []⟩
    else
      ⟨s1, bus, false,
        "Unknown action '" ++ action ++ "'. Allowed: " ++
          pvStr (dgetD s1.state.properties "allowed_actions" (PValue.list [])), []⟩

/-- The result dict of `GameSession.get_result` restricted to the fields
the claims read, plus the feedback line.  `_generate_feedback` compares a
non-default score with numbers, so a non-numeric stored score raises —
surfaced as `Except.error`. -/
structure GameResult where
  success : Bool
  turn : ℕ
  score : PValue
  reason : String
  feedback : String

/-- `GameSession._generate_feedback(success, score)` (lines 522–537). -/
def generate_feedback (s : GameSession) (success : Bool) (score : PValue) :
    Except String String :=
  if success then
    match asNum score with
    | Option.none => Except.error "TypeError: score >= 80"
    | Option.some sc =>
      Except.ok (if sc ≥ 80 then "Excellent! Your agent achieved the objective very efficiently."
        else if sc ≥ 60 then "Good work. Your agent completed the scenario with room for improvement."
        else "Objective achieved, but efficiency was low. Consider a more direct strategy.")
  else
    Except.ok (if s.status = "failed" then
        "Your agent was eliminated. Improve hazard avoidance or situational awareness."
      else if s.scenario.max_turns ≤ s.turn then
        "Turn limit reached. Your agent needs faster decision-making or a clearer strategy."
      else "Scenario incomplete. Review the objectives and available actions.")

/-- `GameSession.get_result()` (lines 503–520): `success` is exactly
`status == "completed"`; the score is the agent's `score` property with
default 0 (0 when the agent entity is gone). -/
def GameSession.get_result (s : GameSession) : Except String GameResult :=
  let success := s.status = "completed"
  let score :=
    match eget s.state.entities s.agent_id with
    | Option.some a => dgetD a.properties "score" (PValue.num 0)
    | Option.none => PValue.num 0
  match generate_feedback s success score with
  | Except.error e => Except.error e
  | Except.ok fb =>
      Except.ok ⟨success, s.turn, score,
        (if success then "Successfully completed scenario" else "Failed to complete"), fb⟩

/-! ## Helper lemmas about the dictionary and entity-map primitives -/

theorem dget_dset_self (d : PDict) (k : String) (v : PValue) :
    dget (dset d k v) k = Option.some v := by
  induction d with
  | nil => simp [dget, dset]
  | cons p rest ih =>
      by_cases h : p.1 = k
      · cases p; simp_all [dget, dset]
      · cases p; simp_all [dget, dset]

theorem dget_dset_ne (d : PDict) (k1 k2 : String) (v : PValue) (h : k1 ≠ k2) :
    dget (dset d k1 v) k2 = dget d k2 := by
  induction d with
  | nil => simp [dget, dset, h]
  | cons p rest ih =>
      by_cases hp : p.1 = k1
      · cases p; simp_all [dget, dset]
      · cases p; simp_all [dget, dset]

theorem eget_eset_self (es : EMap) (k : String) (e : Entity) :
    eget (eset es k e) k = Option.some e := by
  induction es with
  | nil => simp [eget, eset]
  | cons p rest ih =>
      by_cases h : p.1 = k
      · cases p; simp_all [eget, eset]
      · cases p; simp_all [eget, eset]

theorem eget_eset_ne (es : EMap) (k1 k2 : String) (e : Entity) (h : k1 ≠ k2) :
    eget (eset es k1 e) k2 = eget es k2 := by
  induction es with
  | nil => simp [eget, eset, h]
  | cons p rest ih =>
      by_cases hp : p.1 = k1
      · cases p; simp_all [eget, eset]
      · cases p; simp_all [eget, eset]

theorem readProp_writeProp_ne_key (es : EMap) (eid eid2 k k2 : String) (v : PValue)
    (hk : k ≠ k2) :
    readProp (writeProp es eid k v) eid2 k2 = readProp es eid2 k2 := by
  unfold writeProp readProp
  cases h : eget es eid with
  | none => rfl
  | some e =>
      by_cases he : eid2 = eid
      · subst he
        rw [eget_eset_self, h]
        simpa using dget_dset_ne e.properties k k2 v hk
      · rw [eget_eset_ne es eid eid2 _ (fun hx => he hx.symm)]

theorem readProp_writeProp_self (es : EMap) (eid k : String) (v : PValue) (e : Entity)
    (h : eget es eid = Option.some e) :
    readProp (writeProp es eid k v) eid k = Option.some v := by
  unfold writeProp readProp
  rw [h, eget_eset_self]
  simpa using dget_dset_self e.properties k v

/-- `log_event` on the state side: always exactly one append, no
truncation; entities, properties, turn and instance id are untouched. -/
theorem log_event_fst (st : GameState) (bus : EventBus) (t : String) (d : PDict) :
    (st.log_event bus t d).1 =
      { st with events := st.events ++ [(⟨st.turn, t, d⟩ : LoggedEvent)] } := by
  unfold GameState.log_event
  cases h : st.instance_id <;> simp [h]

/-- `GameSession.logEvent` leaves every session field but `state.events`
unchanged, and appends exactly one entry there. -/
theorem logEvent_fst (s : GameSession) (bus : EventBus) (t : String) (d : PDict) :
    (s.logEvent bus t d).1 =
      { s with state :=
          { s.state with events := s.state.events ++ [(⟨s.state.turn, t, d⟩ : LoggedEvent)] } } := by
  simp only [GameSession.logEvent, log_event_fst]

/-! ## C5 — the in-memory event log bound -/

/-- C5 (amended): `log_event` appends every event to the in-memory log and
never discards old entries — the log is unbounded (only the `to_dict`
snapshot window is truncated, to the last 10).  After any sequence of
calls the log holds all logged entries in order. -/
theorem C5_log_event_keeps_every_entry (st : GameState) (bus : EventBus)
    (t : String) (d : PDict) :
    ((st.log_event bus t d).1).events = st.events ++ [(⟨st.turn, t, d⟩ : LoggedEvent)] := by
  rw [log_event_fst]

/-- A fresh `GameState()` with the wall-clock default properties dropped
and 201 `log_event` calls applied to it. -/
def C5iter : ℕ → GameState × EventBus
  | 0 => (⟨0, [], [], [], Option.none⟩, EventBus.empty)
  | Nat.succ n => ((C5iter n).1).log_event (C5iter n).2 "tick" []

set_option maxRecDepth 8000 in
/-- C5 counterexample: after 201 `log_event` calls the in-memory event log
holds 201 entries — more than the 200 the claim allows. -/
theorem C5_counterexample :
    ((C5iter 201).1).events.length = 201 ∧ ¬ (((C5iter 201).1).events.length ≤ 200) := by
  constructor
  · rfl
  · decide

/-! ## C8 — EventBus isolation -/

/-- One externally visible bus operation. -/
inductive BusOp where
  | publish (e : GameEvent)
  | drain (iid : String)
  | clear (iid : String)

/-- The state change of one bus operation (`drain_instance` additionally
returns the drained list, `EventBus.drainResult`). -/
def EventBus.step (bus : EventBus) : BusOp → EventBus
  | BusOp.publish e => bus.publish e
  | BusOp.drain iid => bus.drainState iid
  | BusOp.clear iid => bus.clearInstance iid

/-- A sequence of bus operations, applied in order. -/
def EventBus.run (bus : EventBus) : List BusOp → EventBus
  | [] => bus
  | op :: ops => (bus.step op).run ops

/-- Every queued event sits in the queue of its own instance id. -/
def busWellScoped (bus : EventBus) : Prop :=
  ∀ p ∈ bus.queues, ∀ x ∈ p.2, x.instance_id = p.1

theorem busInsert_wellScoped (e : GameEvent) (l : List (String × List GameEvent))
    (h : ∀ p ∈ l, ∀ x ∈ p.2, x.instance_id = p.1) :
    ∀ p ∈ busInsert e l, ∀ x ∈ p.2, x.instance_id = p.1 := by
  induction l with
  | nil =>
      intro p hp x hx
      simp only [busInsert, List.mem_singleton] at hp
      subst hp
      simp only [List.mem_singleton] at hx
      subst hx
      rfl
  | cons q rest ih =>
      rcases q with ⟨iid, ql⟩
      intro p hp x hx
      by_cases hq : iid = e.instance_id
      · subst hq
        simp only [busInsert, eq_self_iff_true, if_true, List.mem_cons] at hp
        rcases hp with hp | hp
        · subst hp
          rcases List.mem_append.mp hx with hx | hx
          · exact h _ (List.mem_cons_self _ _) x hx
          · simp only [List.mem_singleton] at hx
            subst hx
            rfl
        · exact h _ (List.mem_cons_of_mem _ hp) x hx
      · simp only [busInsert, hq, if_false, List.mem_cons] at hp
        rcases hp with hp | hp
        · subst hp
          exact h _ (List.mem_cons_self _ _) x hx
        · exact ih (fun p hp => h p (List.mem_cons_of_mem _ hp)) p hp x hx

theorem step_wellScoped (bus : EventBus) (op : BusOp) (h : busWellScoped bus) :
    busWellScoped (bus.step op) := by
  cases op with
  | publish e => exact busInsert_wellScoped e bus.queues h
  | drain iid =>
      intro p hp x hx
      simp only [EventBus.step, EventBus.drainState, List.mem_map] at hp
      rcases hp with ⟨q, hq, hpq⟩
      by_cases h1 : q.1 = iid
      · rw [if_pos h1] at hpq
        subst hpq
        simp at hx
      · rw [if_neg h1] at hpq
        subst hpq
        exact h q hq x hx
  | clear iid =>
      intro p hp x hx
      exact h p (List.mem_of_mem_filter hp) x hx

theorem run_wellScoped (ops : List BusOp) (bus : EventBus) (h : busWellScoped bus) :
    busWellScoped (bus.run ops) := by
  induction ops generalizing bus with
  | nil => exact h
  | cons op ops ih => exact ih _ (step_wellScoped bus op h)

theorem busFind_eq (l : List (String × List GameEvent)) (iid : String)
    (p : String × List GameEvent)
    (hf : l.find? (fun q => q.1 = iid) = Option.some p) : p.1 = iid ∧ p ∈ l := by
  induction l with
  | nil => simp at hf
  | cons a rest ih =>
      by_cases h : a.1 = iid
      · rw [List.find?_cons_of_pos (p := fun q : String × List GameEvent => decide (q.1 = iid))
            _ (by simp [h])] at hf
        injection hf with hf
        subst hf
        exact ⟨h, List.mem_cons_self _ _⟩
      · rw [List.find?_cons_of_neg (p := fun q : String × List GameEvent => decide (q.1 = iid))
            _ (by simp [h])] at hf
        obtain ⟨h1, h2⟩ := ih hf
        exact ⟨h1, List.mem_cons_of_mem _ h2⟩

theorem drainResult_scoped (bus : EventBus) (h : busWellScoped bus) (iid : String) :
    ∀ e ∈ bus.drainResult iid, e.instance_id = iid := by
  intro e he
  unfold EventBus.drainResult EventBus.getQueue at he
  cases hf : bus.queues.find? (fun p => p.1 = iid) with
  | none => rw [hf] at he; simp at he
  | some p =>
      rw [hf] at he
      obtain ⟨hp1, hmem⟩ := busFind_eq bus.queues iid p hf
      simp only at he
      exact (h p hmem e he).trans hp1

/-- C8: for any sequence of `publish`, `drain_instance` and
`clear_instance` operations starting from a fresh bus, an event published
with `instance_id = A` is never contained in the list `drain_instance(B)`
returns, for any `B ≠ A`: queues are keyed by instance id and `publish`
only ever appends an event to the queue of its own instance id. -/
theorem C8_bus_isolation (ops : List BusOp) (A B : String) (e : GameEvent)
    (hA : e.instance_id = A) (hAB : A ≠ B) :
    e ∉ (EventBus.run EventBus.empty ops).drainResult B := by
  intro hmem
  have hws : busWellScoped (EventBus.run EventBus.empty ops) :=
    run_wellScoped ops EventBus.empty (by intro p hp; simp [EventBus.empty] at hp)
  have hB := drainResult_scoped _ hws B e hmem
  rw [hA] at hB
  exact hAB hB

/-- C8 witness: a concrete event published for instance `"A"` is not among
what `drain_instance("B")` returns. -/
theorem C8_bus_isolation_witness :
    (⟨"A", "talk", [], 0, 0⟩ : GameEvent) ∉
      (EventBus.run EventBus.empty
        [BusOp.publish ⟨"A", "talk", [], 0, 0⟩]).drainResult "B" :=
  C8_bus_isolation [BusOp.publish ⟨"A", "talk", [], 0, 0⟩] "A" "B" _ rfl (by decide)

/-! ## C2 — NPC update application -/

theorem applyMsgKeys_health (r p : PDict) :
    dget (applyMsgKeys r p) "health" = dget p "health" := by
  unfold applyMsgKeys
  cases h1 : dget r "mood" <;> cases h2 : dget r "last_ai_message" <;>
    cases h3 : dget r "patrol_target" <;>
    simp +decide [h1, h2, h3, dget_dset_ne]

theorem applyMsgKeys_mood (r p : PDict) (v : PValue) (h : dget r "mood" = Option.some v) :
    dget (applyMsgKeys r p) "mood" = Option.some v := by
  unfold applyMsgKeys
  rw [h]
  cases h2 : dget r "last_ai_message" <;> cases h3 : dget r "patrol_target" <;>
    simp +decide [h2, h3, dget_dset_ne, dget_dset_self]

theorem applyMsgKeys_lam (r p : PDict) (v : PValue)
    (h : dget r "last_ai_message" = Option.some v) :
    dget (applyMsgKeys r p) "last_ai_message" = Option.some v := by
  unfold applyMsgKeys
  rw [h]
  cases h1 : dget r "mood" <;> cases h3 : dget r "patrol_target" <;>
    simp +decide [h1, h3, dget_dset_ne, dget_dset_self]

theorem applyMsgKeys_patrol (r p : PDict) (v : PValue)
    (h : dget r "patrol_target" = Option.some v) :
    dget (applyMsgKeys r p) "patrol_target" = Option.some v := by
  unfold applyMsgKeys
  rw [h]
  cases h1 : dget r "mood" <;> cases h2 : dget r "last_ai_message" <;>
    simp +decide [h1, h2, dget_dset_ne, dget_dset_self]

/-- C2 (amended): `_apply_npc_update` does not recognize `health_delta` —
the NPC's `health` property (indeed every entity's) is unchanged by every
update, whatever keys the result carries; the keys the engine does apply
are `trust_delta`, `mood`, `last_ai_message` and `patrol_target` (the
latter three shown here for updates without a trust adjustment). -/
theorem C2_health_delta_is_ignored (es : EMap) (npc_id eid : String) (result : PDict) :
    readProp (apply_npc_update es npc_id result) eid "health" = readProp es eid "health" ∧
    ((dgetPy result "trust_delta").isNone = true →
      (eget es npc_id).isSome = true →
      (∀ v, dget result "mood" = Option.some v →
        readProp (apply_npc_update es npc_id result) npc_id "mood" = Option.some v) ∧
      (∀ v, dget result "last_ai_message" = Option.some v →
        readProp (apply_npc_update es npc_id result) npc_id "last_ai_message" = Option.some v) ∧
      (∀ v, dget result "patrol_target" = Option.some v →
        readProp (apply_npc_update es npc_id result) npc_id "patrol_target" = Option.some v)) := by
  constructor
  · unfold apply_npc_update
    cases hn : eget es npc_id with
    | none => rfl
    | some npc =>
        by_cases ht : (dgetPy result "trust_delta").isNone
        · simp only [ht, if_pos]
          by_cases he : eid = npc_id
          · subst he
            unfold readProp
            rw [eget_eset_self, hn]
            simpa using applyMsgKeys_health result npc.properties
          · unfold readProp
            rw [eget_eset_ne _ _ _ _ (fun hx => he hx.symm)]
        · simp only [ht, if_neg, Bool.false_eq_true, reduceIte]
          cases hf : pyToFloat (dgetPy result "trust_delta") with
          | none => rfl
          | some dlt =>
              cases hc : asNum (dgetD npc.properties "trust" (PValue.num (1/2))) with
              | none => rfl
              | some cur =>
                  by_cases he : eid = npc_id
                  · subst he
                    unfold readProp
                    rw [eget_eset_self, hn]
                    simp only []
                    rw [applyMsgKeys_health]
                    simpa using dget_dset_ne npc.properties "trust" "health" _ (by decide)
                  · unfold readProp
                    rw [eget_eset_ne _ _ _ _ (fun hx => he hx.symm)]
  · intro ht hs
    unfold apply_npc_update
    cases hn : eget es npc_id with
    | none => rw [hn] at hs; simp at hs
    | some npc =>
        simp only [ht, if_pos]
        refine ⟨fun v hv => ?_, fun v hv => ?_, fun v hv => ?_⟩ <;>
          · unfold readProp
            rw [eget_eset_self]
            simp only []
            first
            | exact applyMsgKeys_mood result npc.properties v hv
            | exact applyMsgKeys_lam result npc.properties v hv
            | exact applyMsgKeys_patrol result npc.properties v hv

/-- The concrete NPC and update for the C2 counterexample and witness. -/
def C2es : EMap :=
  [("npc1", ⟨"npc1", "npc", 0, 0, [("health", PValue.num 10), ("max_health", PValue.num 50)]⟩)]

/-- An AI reply carrying only a numeric `health_delta`. -/
def C2result : PDict := [("health_delta", PValue.num 5)]

/-- C2 counterexample: an update whose result is `{health_delta: 5}` on an
NPC with health 10 leaves health at 10 — not at `10 + 5` clamped to
`[0, max_health]` as the claim requires. -/
theorem C2_counterexample :
    readProp (apply_npc_update C2es "npc1" C2result) "npc1" "health" =
      Option.some (PValue.num 10) ∧
    ¬ (readProp (apply_npc_update C2es "npc1" C2result) "npc1" "health" =
      Option.some (PValue.num (10 + 5))) := by
  have h : readProp (apply_npc_update C2es "npc1" C2result) "npc1" "health" =
      Option.some (PValue.num 10) := by rfl
  refine ⟨h, ?_⟩
  rw [h]
  intro hc
  have : (10 : ℚ) = 10 + 5 := by injection hc with h2; injection h2
  norm_num at this

/-- A reply carrying `health_delta` next to a recognized key. -/
def C2result2 : PDict := [("mood", PValue.str "angry"), ("health_delta", PValue.num 5)]

/-- C2 witness: at the concrete NPC, health is unchanged while the
recognized `mood` key is applied. -/
theorem C2_health_delta_is_ignored_witness :
    readProp (apply_npc_update C2es "npc1" C2result2) "npc1" "health" =
      readProp C2es "npc1" "health" ∧
    readProp (apply_npc_update C2es "npc1" C2result2) "npc1" "mood" =
      Option.some (PValue.str "angry") := by
  have h := C2_health_delta_is_ignored C2es "npc1" "npc1" C2result2
  exact ⟨h.1, ((h.2 rfl rfl).1 _ rfl)⟩

/-! ## C7 — AgentPool.request -/

/-- C7 (amended): `request` returns `None` when no worker is registered
for the role, leaving the pool untouched; otherwise it dispatches to the
worker at the role's round-robin cursor and advances the cursor modulo the
list length — and an exception raised by the worker's `handle_request` is
caught and surfaced as `None` (the same value as "no worker available"),
not as a response with `success = false`. -/
theorem C7_request_contract (p : AgentPool) (role action priority : String) (ctx : PDict) :
    ((alookup p.agents role = Option.none ∨ alookup p.agents role = Option.some []) →
      p.request role action ctx priority = Except.ok (p, Option.none)) ∧
    (∀ ws w, alookup p.agents role = Option.some ws →
      ws.get? ((alookup p.current_agent_index role).getD 0) = Option.some w →
      p.request role action ctx priority =
        Except.ok
          ({ p with
              current_agent_index :=
                aset p.current_agent_index role
                  (((alookup p.current_agent_index role).getD 0 + 1) % ws.length)
              request_counter := p.request_counter + 1 },
           match w.handle ⟨role, action, ctx,
               "req_" ++ toString (p.request_counter + 1), priority⟩ with
           | Except.ok resp => Option.some resp
           | Except.error _ => Option.none)) := by
  constructor
  · intro h
    unfold AgentPool.request
    rcases h with h | h
    · rw [h]
    · rw [h]
      simp [List.isEmpty]
  · intro ws w hws hget
    unfold AgentPool.request
    have hne : ws.isEmpty = false := by
      cases ws with
      | nil => simp at hget
      | cons a rest => rfl
    rw [hws]
    simp only [hne, Bool.false_eq_true, reduceIte, hget]
    split <;> simp_all

/-- A registered NPC-admin worker whose `handle_request` raises. -/
def C7worker : Worker := ⟨"npc_admin_1", fun _ => Except.error "boom"⟩

/-- A pool with exactly that worker, cursor at 0, no requests yet. -/
def C7pool : AgentPool := ⟨[("npc_admin", [C7worker])], [("npc_admin", 0)], 0⟩

/-- The pool `request` leaves behind: cursor advanced modulo 1, counter 1. -/
def C7poolAfter : AgentPool := ⟨[("npc_admin", [C7worker])], [("npc_admin", 1 % 1)], 1⟩

/-- C7 counterexample: when the selected worker's `handle_request` raises,
`request` returns `None` — no response object with `success = false` is
ever surfaced to the caller. -/
theorem C7_counterexample :
    C7pool.request "npc_admin" "npc_reaction" [] "normal" =
      Except.ok (C7poolAfter, Option.none) ∧
    ¬ (∃ p2 r, C7pool.request "npc_admin" "npc_reaction" [] "normal" =
        Except.ok (p2, Option.some r) ∧ r.success = false) := by
  have h : C7pool.request "npc_admin" "npc_reaction" [] "normal" =
      Except.ok (C7poolAfter, Option.none) := rfl
  refine ⟨h, ?_⟩
  rintro ⟨p2, r, hr, _⟩
  rw [h] at hr
  simp at hr

/-- C7 witness: the contract applied to the concrete one-worker pool. -/
theorem C7_request_contract_witness :
    C7pool.request "npc_admin" "npc_reaction" [] "normal" =
      Except.ok
        ({ C7pool with
            current_agent_index :=
              aset C7pool.current_agent_index "npc_admin"
                (((alookup C7pool.current_agent_index "npc_admin").getD 0 + 1) %
                  ([C7worker].length))
            request_counter := C7pool.request_counter + 1 },
         match C7worker.handle ⟨"npc_admin", "npc_reaction", [],
             "req_" ++ toString (C7pool.request_counter + 1), "normal"⟩ with
         | Except.ok resp => Option.some resp
         | Except.error _ => Option.none) :=
  (C7_request_contract C7pool "npc_admin" "npc_reaction" "normal" []).2 [C7worker] C7worker rfl rfl

/-! ## C10 — the max-turns branch reports success -/

/-- C10: when an in-progress session has used up its turns, the next
`process_action` call returns failure with message "Maximum turns reached"
AND flips the session status to "completed" — precisely the status value
`get_result` reads as success, so the session thereafter reports
`success = true` although no objective was achieved.  (`sc` is the agent's
numeric stored score, or the 0 default; a numeric score is what
`_generate_feedback` needs to return at all.) -/
theorem C10_turn_cap_reports_success (s : GameSession) (bus : EventBus) (action : String)
    (params : PDict) (roll : ℚ) (sc : ℚ)
    (hst : s.status = "in_progress")
    (hturn : s.scenario.max_turns ≤ s.turn)
    (hscore : asNum (match eget s.state.entities s.agent_id with
                     | Option.some a => dgetD a.properties "score" (PValue.num 0)
                     | Option.none => PValue.num 0) = Option.some sc) :
    (s.process_action bus action params roll).success = false ∧
    (s.process_action bus action params roll).message = "Maximum turns reached" ∧
    (s.process_action bus action params roll).sess.status = "completed" ∧
    ∃ res, ((s.process_action bus action params roll).sess).get_result = Except.ok res ∧
      res.success = true := by
  have hr : s.process_action bus action params roll =
      ⟨{ s with status := "completed" }, bus, false, "Maximum turns reached", []⟩ := by
    unfold GameSession.process_action
    rw [if_neg (by simp [hst]), if_pos hturn]
  rw [hr]
  refine ⟨rfl, rfl, rfl, ?_⟩
  unfold GameSession.get_result generate_feedback
  simp only [eq_self_iff_true, if_true, decide_True, hscore]
  exact ⟨_, rfl, rfl⟩

/-- A session that has used all 50 of its turns, with a zero-score agent. -/
def C10sess : GameSession :=
  ⟨"g1", "agent1", "in_progress", 50,
   ⟨0, [("agent1", ⟨"agent1", "agent", 50, 50,
        [("health", PValue.num 100), ("score", PValue.num 0)]⟩)], [], [], Option.none⟩,
   [], ⟨50, 400, 300⟩, false⟩

/-- C10 witness: at the concrete exhausted session the call fails with
"Maximum turns reached" yet `get_result` then reports success. -/
theorem C10_turn_cap_reports_success_witness :
    (C10sess.process_action EventBus.empty "move" [] 0).success = false ∧
    (C10sess.process_action EventBus.empty "move" [] 0).message = "Maximum turns reached" ∧
    (C10sess.process_action EventBus.empty "move" [] 0).sess.status = "completed" ∧
    ∃ res, ((C10sess.process_action EventBus.empty "move" [] 0).sess).get_result =
      Except.ok res ∧ res.success = true :=
  C10_turn_cap_reports_success C10sess EventBus.empty "move" [] 0 0 rfl (by decide) rfl

/-! ## C9 — unknown verbs still consume a turn -/

/-- C9 (amended): a syntactically unknown action verb on an in-progress
session below the turn cap returns failure WITHOUT touching the world
state, the event log or the bus — but the turn counter is incremented and
the action is appended to the action log before the verb is dispatched
(`self.turn += 1` precedes the dispatch in the source), so the turn
counter is NOT unchanged. -/
theorem C9_unknown_verb_increments_turn (s : GameSession) (bus : EventBus) (action : String)
    (params : PDict) (roll : ℚ)
    (hst : s.status = "in_progress")
    (hturn : s.turn < s.scenario.max_turns)
    (hunk : ¬ action ∈ handledVerbs) :
    (s.process_action bus action params roll).success = false ∧
    (s.process_action bus action params roll).sess.turn = s.turn + 1 ∧
    (s.process_action bus action params roll).sess.state = s.state ∧
    (s.process_action bus action params roll).bus = bus ∧
    (s.process_action bus action params roll).sess.actions_taken =
      s.actions_taken ++ [(⟨s.turn + 1, action, params⟩ : ActionRecord)] := by
  have hc : handledVerbs.contains action = false := by
    simpa using hunk
  have hr : s.process_action bus action params roll =
      ⟨{ s with
          turn := s.turn + 1
          actions_taken := s.actions_taken ++ [(⟨s.turn + 1, action, params⟩ : ActionRecord)] },
        bus, false,
        "Unknown action '" ++ action ++ "'. Allowed: " ++
          pvStr (dgetD s.state.properties "allowed_actions" (PValue.list [])), []⟩ := by
    unfold GameSession.process_action
    rw [if_neg (by simp [hst]), if_neg (by omega), hc]
    simp
  rw [hr]
  exact ⟨rfl, rfl, rfl, rfl, rfl⟩

/-- A fresh in-progress session at turn 0 with an empty world. -/
def C9sess : GameSession :=
  ⟨"g1", "agent1", "in_progress", 0, ⟨0, [], [], [], Option.none⟩, [], ⟨50, 400, 300⟩, false⟩

/-- C9 counterexample: the unknown verb "fly" returns failure but leaves
the turn counter at 1, not at its previous value 0. -/
theorem C9_counterexample :
    (C9sess.process_action EventBus.empty "fly" [] 0).success = false ∧
    (C9sess.process_action EventBus.empty "fly" [] 0).sess.turn = 1 ∧
    C9sess.turn = 0 ∧
    ¬ ((C9sess.process_action EventBus.empty "fly" [] 0).sess.turn = C9sess.turn) := by
  exact ⟨rfl, rfl, rfl, by decide⟩

/-- C9 witness: the amended contract applied to the concrete session. -/
theorem C9_unknown_verb_increments_turn_witness :
    (C9sess.process_action EventBus.empty "jump" [] 0).success = false ∧
    (C9sess.process_action EventBus.empty "jump" [] 0).sess.turn = C9sess.turn + 1 ∧
    (C9sess.process_action EventBus.empty "jump" [] 0).sess.state = C9sess.state ∧
    (C9sess.process_action EventBus.empty "jump" [] 0).bus = EventBus.empty ∧
    (C9sess.process_action EventBus.empty "jump" [] 0).sess.actions_taken =
      C9sess.actions_taken ++ [(⟨C9sess.turn + 1, "jump", []⟩ : ActionRecord)] :=
  C9_unknown_verb_increments_turn C9sess EventBus.empty "jump" [] 0 rfl (by decide) (by decide)

/-! ## C4 — happy-path move to exit -/

/-- The player of the spec's happy-path scenario, at (50,50). -/
def C4player : Entity := ⟨"agent1", "agent", 50, 50,
  [("health", PValue.num 100), ("score", PValue.num 0), ("gold", PValue.num 500),
   ("inventory", PValue.list [])]⟩

/-- The exit entity at (60,60) with radius 25. -/
def C4exit : Entity := ⟨"exit1", "exit", 60, 60, [("radius", PValue.num 25)]⟩

/-- The 400×300 world with `max_turns = 50`. -/
def C4state : GameState := ⟨0, [("agent1", C4player), ("exit1", C4exit)], [],
  [("world_width", PValue.num 400), ("world_height", PValue.num 300),
   ("max_turns", PValue.num 50)],
  Option.none⟩

/-- The in-progress session at turn 0. -/
def C4sess : GameSession := ⟨"g1", "agent1", "in_progress", 0, C4state, [], ⟨50, 400, 300⟩, false⟩

/-- C4: a single `move(right, distance=10)` from (50,50) reaches the exit
at (60,60) (distance 10 < radius 25), returns success, completes the
session and sets the score to exactly `max(0, 100 − (1/50)×50) = 99`. -/
theorem C4_happy_path_move_to_exit :
    (C4sess.process_action EventBus.empty "move"
      [("direction", PValue.str "right"), ("distance", PValue.num 10)] 0).success = true ∧
    (C4sess.process_action EventBus.empty "move"
      [("direction", PValue.str "right"), ("distance", PValue.num 10)] 0).sess.status =
      "completed" ∧
    readProp (C4sess.process_action EventBus.empty "move"
      [("direction", PValue.str "right"), ("distance", PValue.num 10)] 0).sess.state.entities
      "agent1" "score" = Option.some (PValue.num 99) ∧
    dget (C4sess.process_action EventBus.empty "move"
      [("direction", PValue.str "right"), ("distance", PValue.num 10)] 0).update "score" =
      Option.some (PValue.num 99) ∧
    (99 : ℚ) = max 0 (100 - (1 / 50) * 50) := by
  norm_num +decide [C4sess, C4state, C4player, C4exit, GameSession.process_action, handledVerbs,
    handle_move, moveScan, boundsCheck, resolve_npc, GameSession.logEvent, GameState.log_event,
    dget, dgetD, dgetPy, dset, pyTruthy, pyOr, asNum, pyToInt, qtrunc, distLt, pvEqStr,
    eget, eset, writeProp, readProp, EventBus.publish, pvStr, Option.getD]

/-! ## C3 — validation failure after the event was logged -/

/-- The shopkeeper NPC at (80,80) whose inventory has only `sword_01`. -/
def C3npc : Entity := ⟨"npc1", "npc", 80, 80,
  [("pricing_multiplier", PValue.num (12/10)),
   ("inventory", PValue.dict [("sword_01", PValue.dict [("value", PValue.num 100)])])]⟩

/-- World shared with a running instance (`_instance_id = "inst1"`), so
`log_event` also publishes to the bus. -/
def C3state : GameState := ⟨0, [("agent1", C4player), ("npc1", C3npc)], [],
  [("max_turns", PValue.num 50)], Option.some "inst1"⟩

/-- The in-progress session over that world. -/
def C3sess : GameSession := ⟨"g1", "agent1", "in_progress", 0, C3state, [], ⟨50, 400, 300⟩, false⟩

/-- A negotiate call naming an item the NPC does not stock. -/
def C3params : PDict := [("npc_id", PValue.str "npc1"), ("item_id", PValue.str "missing_item"),
  ("offered_price", PValue.num 10)]

/-- The payload `_handle_negotiate` logs before validating the item. -/
def C3data : PDict := [("agent_id", PValue.str "agent1"), ("npc_id", PValue.str "npc1"),
  ("item_id", PValue.str "missing_item"), ("offered_price", PValue.num 10)]

/-- C3 counterexample: a negotiate call whose `item_id` is not in the
NPC's inventory fails — yet it appends the `negotiate` event to the event
log, publishes it on the EventBus queue of the instance (with the NPC's
coordinates), and increments the session turn counter.  None of the five
"unchanged" components of the claim survive except the entity state. -/
theorem C3_counterexample :
    (C3sess.process_action EventBus.empty "negotiate" C3params 0).success = false ∧
    C3sess.state.events = [] ∧
    (C3sess.process_action EventBus.empty "negotiate" C3params 0).sess.state.events =
      [(⟨0, "negotiate", C3data⟩ : LoggedEvent)] ∧
    ((C3sess.process_action EventBus.empty "negotiate" C3params 0).bus).drainResult "inst1" =
      [(⟨"inst1", "negotiate", C3data, 80, 80⟩ : GameEvent)] ∧
    (C3sess.process_action EventBus.empty "negotiate" C3params 0).sess.turn = 1 := by
  norm_num +decide [C3sess, C3state, C4player, C3npc, C3params, C3data,
    GameSession.process_action, handledVerbs, handle_negotiate, resolve_npc,
    GameSession.logEvent, GameState.log_event, dictLookupPy, PValue.isNone,
    dget, dgetD, dgetPy, dset, pyTruthy, pyOr, asNum, eget, eset, writeProp, readProp,
    EventBus.publish, busInsert, EventBus.drainResult, EventBus.getQueue, pvStr, Option.getD]

/-- The payload `_handle_negotiate` logs (source lines 307–312). -/
def negotiatePayload (s : GameSession) (npc : Entity) (params : PDict) : PDict :=
  [("agent_id", PValue.str s.agent_id), ("npc_id", PValue.str npc.id),
   ("item_id", dgetPy params "item_id"), ("offered_price", dgetPy params "offered_price")]

theorem handle_negotiate_missing_item (s : GameSession) (bus : EventBus) (params : PDict)
    (nkey : String) (npc : Entity) (inv : PDict)
    (hres : resolve_npc s.state params = Option.some (nkey, npc))
    (hitem : (dgetPy params "item_id").isNone = false)
    (hoff : (dgetPy params "offered_price").isNone = false)
    (hinv : dgetD npc.properties "inventory" (PValue.dict []) = PValue.dict inv)
    (hmiss : pyTruthy (dictLookupPy inv (dgetPy params "item_id")) = false) :
    handle_negotiate s bus params =
      ((s.logEvent bus "negotiate" (negotiatePayload s npc params)).1,
       (s.logEvent bus "negotiate" (negotiatePayload s npc params)).2,
       Except.ok (false, "Item '" ++ pvStr (dgetPy params "item_id") ++ "' not found in " ++
         npc.id ++ "'s inventory.", [])) := by
  unfold handle_negotiate negotiatePayload
  rw [hres]
  simp only [hitem, hoff, Bool.or_self, Bool.false_eq_true, reduceIte, hinv, hmiss,
    not_false_eq_true, if_true, not_false_iff, Bool.not_false]

/-- C3 (amended): a `negotiate` whose `item_id` is not in the NPC's
inventory is reported as a failure and leaves the entity state untouched —
but it is NOT free of effects: the `negotiate` event has already been
appended to the event log and published on the EventBus before the item
lookup, the turn counter is incremented and the call is appended to the
action log.  (Only syntactically unknown verbs leave log, bus and world
untouched.) -/
theorem C3_param_failure_still_logs (s : GameSession) (bus : EventBus) (params : PDict)
    (roll : ℚ) (nkey : String) (npc : Entity) (inv : PDict)
    (hst : s.status = "in_progress")
    (hturn : s.turn < s.scenario.max_turns)
    (hres : resolve_npc s.state params = Option.some (nkey, npc))
    (hitem : (dgetPy params "item_id").isNone = false)
    (hoff : (dgetPy params "offered_price").isNone = false)
    (hinv : dgetD npc.properties "inventory" (PValue.dict []) = PValue.dict inv)
    (hmiss : pyTruthy (dictLookupPy inv (dgetPy params "item_id")) = false) :
    (s.process_action bus "negotiate" params roll).success = false ∧
    (s.process_action bus "negotiate" params roll).sess.state.entities = s.state.entities ∧
    (s.process_action bus "negotiate" params roll).sess.turn = s.turn + 1 ∧
    (s.process_action bus "negotiate" params roll).sess.state.events =
      s.state.events ++
        [(⟨s.state.turn, "negotiate", negotiatePayload s npc params⟩ : LoggedEvent)] ∧
    (s.process_action bus "negotiate" params roll).bus =
      (s.state.log_event bus "negotiate" (negotiatePayload s npc params)).2 := by
  have hr := handle_negotiate_missing_item
    { s with
        turn := s.turn + 1
        actions_taken := s.actions_taken ++ [(⟨s.turn + 1, "negotiate", params⟩ : ActionRecord)] }
    bus params nkey npc inv hres hitem hoff hinv hmiss
  unfold GameSession.process_action
  rw [if_neg (by simp [hst]), if_neg (by omega)]
  rw [if_pos (show handledVerbs.contains "negotiate" = true from rfl)]
  rw [if_neg (by decide), if_neg (by decide), if_neg (by decide), if_pos rfl]
  simp only [hr, GameSession.logEvent, log_event_fst, negotiatePayload]
  simp [dget]

/-- C3 witness: the amended contract applied to the concrete session with
the missing item. -/
theorem C3_param_failure_still_logs_witness :
    (C3sess.process_action EventBus.empty "negotiate" C3params 0).success = false ∧
    (C3sess.process_action EventBus.empty "negotiate" C3params 0).sess.state.entities =
      C3sess.state.entities ∧
    (C3sess.process_action EventBus.empty "negotiate" C3params 0).sess.turn = C3sess.turn + 1 ∧
    (C3sess.process_action EventBus.empty "negotiate" C3params 0).sess.state.events =
      C3sess.state.events ++
        [(⟨C3sess.state.turn, "negotiate",
           negotiatePayload C3sess C3npc C3params⟩ : LoggedEvent)] ∧
    (C3sess.process_action EventBus.empty "negotiate" C3params 0).bus =
      (C3sess.state.log_event EventBus.empty "negotiate"
        (negotiatePayload C3sess C3npc C3params)).2 :=
  C3_param_failure_still_logs C3sess EventBus.empty C3params 0 "npc1" C3npc
    [("sword_01", PValue.dict [("value", PValue.num 100)])]
    rfl (by decide) rfl rfl rfl rfl rfl

/-! ## C6 — the negotiate contract -/

/-- C6 (amended): with the item in the NPC's inventory, a numeric offer is
accepted iff `offered_price ≥ 0.8 × (value × pricing_multiplier)`; the
returned `counter_price` is the base price ROUNDED HALF-TO-EVEN to an
integer (`round(base, 0)`), not the base price itself; the entity state —
hence the player's gold and both inventories — and the session status are
unchanged. -/
theorem C6_negotiate_contract (s : GameSession) (bus : EventBus) (params : PDict)
    (nkey : String) (npc : Entity) (inv item : PDict) (iid : String) (v m p : ℚ)
    (hres : resolve_npc s.state params = Option.some (nkey, npc))
    (hiid : dgetPy params "item_id" = PValue.str iid)
    (hoff : dgetPy params "offered_price" = PValue.num p)
    (hinv : dgetD npc.properties "inventory" (PValue.dict []) = PValue.dict inv)
    (hfound : dgetPy inv iid = PValue.dict item)
    (hne : item ≠ [])
    (hval : dgetD item "value" (PValue.num 100) = PValue.num v)
    (hmul : dgetD npc.properties "pricing_multiplier" (PValue.num 1) = PValue.num m) :
    (handle_negotiate s bus params).2.2 =
      Except.ok (decide (p ≥ v * m * (8/10)),
        (if decide (p ≥ v * m * (8/10)) then
           "Offer accepted at " ++ pvStr (PValue.num p) ++ " gold."
         else "Offer refused. Counter-price: " ++
           pvStr (PValue.num ((pyRound (v * m) : ℤ) : ℚ)) ++ " gold."),
        [("accepted", PValue.bool (decide (p ≥ v * m * (8/10)))),
         ("item_id", PValue.str iid),
         ("counter_price", PValue.num ((pyRound (v * m) : ℤ) : ℚ))]) ∧
    (handle_negotiate s bus params).1.state.entities = s.state.entities ∧
    (handle_negotiate s bus params).1.status = s.status := by
  have hne2 : item.isEmpty = false := by
    cases item with
    | nil => exact absurd rfl hne
    | cons a l => rfl
  unfold handle_negotiate
  rw [hres]
  rw [hiid, hoff]
  simp only [PValue.isNone, Bool.or_self, Bool.false_eq_true, reduceIte, hinv,
    dictLookupPy, hfound, pyTruthy, hne2, Bool.not_false, not_false_eq_true, if_true,
    hval, hmul, asNum, logEvent_fst]
  refine ⟨rfl, rfl, rfl⟩

/-- An NPC selling one gem of value 5 at pricing multiplier 1.1: the base
price 5.5 is not an integer, so the returned counter-price differs. -/
def C6npc : Entity := ⟨"npc2", "npc", 0, 0,
  [("pricing_multiplier", PValue.num (11/10)),
   ("inventory", PValue.dict [("gem_01", PValue.dict [("value", PValue.num 5)])])]⟩

/-- World holding the player and that NPC. -/
def C6state : GameState := ⟨0, [("agent1", C4player), ("npc2", C6npc)], [], [], Option.none⟩

/-- The session over it. -/
def C6sess : GameSession := ⟨"g1", "agent1", "in_progress", 0, C6state, [], ⟨50, 400, 300⟩, false⟩

/-- A low offer for the gem. -/
def C6params : PDict := [("npc_id", PValue.str "npc2"), ("item_id", PValue.str "gem_01"),
  ("offered_price", PValue.num 1)]

/-- C6 counterexample: with value 5 and multiplier 1.1 the base price is
5.5, but the returned `counter_price` is `round(5.5, 0) = 6` — the claim
"the returned counter_price equals the base price" fails. -/
theorem C6_counterexample :
    (handle_negotiate C6sess EventBus.empty C6params).2.2 =
      Except.ok (false,
        "Offer refused. Counter-price: " ++ pvStr (PValue.num 6) ++ " gold.",
        [("accepted", PValue.bool false), ("item_id", PValue.str "gem_01"),
         ("counter_price", PValue.num 6)]) ∧
    ¬ ((6 : ℚ) = 5 * (11 / 10)) := by
  constructor
  · norm_num +decide [C6sess, C6state, C6npc, C6params, C4player, handle_negotiate,
      resolve_npc, dictLookupPy, PValue.isNone, pyTruthy, pyOr, asNum,
      GameSession.logEvent, GameState.log_event, dget, dgetD, dgetPy, dset, eget,
      EventBus.publish, busInsert, Option.getD, pyRound, qfloor,
      (show Int.fdiv 11 2 = 5 from rfl)]
  · norm_num

/-- The spec's negotiate-accept NPC: `sword_01 {value: 100}`, multiplier 1.2. -/
def C6npcW : Entity := ⟨"npc3", "npc", 0, 0,
  [("pricing_multiplier", PValue.num (12/10)),
   ("inventory", PValue.dict [("sword_01", PValue.dict [("value", PValue.num 100)])])]⟩

/-- World holding the player and that shopkeeper. -/
def C6stateW : GameState := ⟨0, [("agent1", C4player), ("npc3", C6npcW)], [], [], Option.none⟩

/-- The session over it. -/
def C6sessW : GameSession := ⟨"g1", "agent1", "in_progress", 0, C6stateW, [], ⟨50, 400, 300⟩, false⟩

/-- An offer of exactly 0.8 × 120 = 96. -/
def C6paramsW : PDict := [("npc_id", PValue.str "npc3"), ("item_id", PValue.str "sword_01"),
  ("offered_price", PValue.num 96)]

/-- C6 witness: the contract at the spec's concrete scenario — an offer of
96 on base 120 is accepted and the counter-price is 120; entities remain
unchanged. -/
theorem C6_negotiate_contract_witness :
    (handle_negotiate C6sessW EventBus.empty C6paramsW).2.2 =
      Except.ok (true, "Offer accepted at " ++ pvStr (PValue.num 96) ++ " gold.",
        [("accepted", PValue.bool true), ("item_id", PValue.str "sword_01"),
         ("counter_price", PValue.num 120)]) ∧
    (handle_negotiate C6sessW EventBus.empty C6paramsW).1.state.entities =
      C6sessW.state.entities := by
  have h := C6_negotiate_contract C6sessW EventBus.empty C6paramsW "npc3" C6npcW
    [("sword_01", PValue.dict [("value", PValue.num 100)])] [("value", PValue.num 100)]
    "sword_01" 100 (12/10) 96 rfl rfl rfl rfl rfl (by simp) rfl rfl
  refine ⟨?_, h.2.1⟩
  rw [h.1]
  norm_num [pyRound, qfloor, (show Int.fdiv 120 1 = 120 from rfl)]

/-! ## C1 — health vs session status -/

theorem num_some_inj {a b : ℚ}
    (hab : Option.some (PValue.num a) = Option.some (PValue.num b)) : a = b := by
  injection hab with h1
  injection h1

theorem readProp_of_eget (s : GameSession) (agent : Entity) (k : String)
    (hmem : eget s.state.entities s.agent_id = Option.some agent) :
    readProp s.state.entities s.agent_id k = dget agent.properties k := by
  unfold readProp
  rw [hmem]


/-- Through the `_handle_move` proximity scan: starting from an agent with
positive numeric health, if the scan falls through it leaves the session
untouched, and whenever the session it returns shows the agent at
nonpositive health its status is "failed" (the hazard branch is the only
one that lowers health, and it sets "failed" exactly when the new health
is ≤ 0). -/
theorem moveScan_health (s : GameSession) (bus : EventBus) (agent : Entity) (nx ny : ℚ)
    (l : List (String × Entity))
    (hmem : eget s.state.entities s.agent_id = Option.some agent)
    (h : ℚ) (hh : dget agent.properties "health" = Option.some (PValue.num h)) (h0 : 0 < h) :
    ((moveScan s bus agent nx ny l).2.2 = Option.none → (moveScan s bus agent nx ny l).1 = s) ∧
    (∀ h2, readProp (moveScan s bus agent nx ny l).1.state.entities s.agent_id "health" =
        Option.some (PValue.num h2) →
      h2 ≤ 0 → (moveScan s bus agent nx ny l).1.status = "failed") := by
  have base : ∀ h2 : ℚ, readProp s.state.entities s.agent_id "health" =
      Option.some (PValue.num h2) → h2 ≤ 0 → False := by
    intro h2 hp hl
    rw [readProp_of_eget s agent _ hmem, hh] at hp
    have := num_some_inj hp
    linarith
  have base2 : ∀ h2 : ℚ,
      readProp (eset s.state.entities s.agent_id { agent with x := nx, y := ny })
        s.agent_id "health" = Option.some (PValue.num h2) → h2 ≤ 0 → False := by
    intro h2 hp hl
    unfold readProp at hp
    rw [eget_eset_self] at hp
    dsimp only at hp
    rw [hh] at hp
    have := num_some_inj hp
    linarith
  induction l with
  | nil =>
      exact ⟨fun _ => rfl, fun h2 hp hl => ((base h2 hp hl).elim)⟩
  | cons p rest ih =>
      rcases p with ⟨eid, entity⟩
      simp only [moveScan]
      split
      · exact ih
      · split
        · exact ⟨fun hc => Option.noConfusion hc, fun h2 hp hl => (base h2 hp hl).elim⟩
        · rename_i radius hrad
          split
          · split
            · -- hazard
              split
              · rename_i damage hx hdm hhx
                have hxh : hx = h := by
                  rw [dgetD, hh] at hhx
                  simp only [Option.getD, asNum, Option.some.injEq] at hhx
                  exact hhx.symm
                subst hxh
                split
                · exact ⟨fun hc => Option.noConfusion hc, fun h2 _ _ => rfl⟩
                · rename_i hle0
                  refine ⟨fun hc => Option.noConfusion hc, fun h2 hp hl => ?_⟩
                  simp only [logEvent_fst] at hp
                  rw [readProp_writeProp_self _ _ _ _ agent hmem] at hp
                  have hd2 := num_some_inj hp
                  exact (hle0 (by linarith)).elim
              · exact ⟨fun hc => Option.noConfusion hc, fun h2 hp hl => (base h2 hp hl).elim⟩
            · split
              · -- exit
                split
                · refine ⟨fun hc => Option.noConfusion hc, fun h2 hp hl => ?_⟩
                  exact (base2 h2 hp hl).elim
                · split
                  · refine ⟨fun hc => Option.noConfusion hc, fun h2 hp hl => ?_⟩
                    exact (base2 h2 hp hl).elim
                  · refine ⟨fun hc => Option.noConfusion hc, fun h2 hp hl => ?_⟩
                    simp only [logEvent_fst] at hp
                    rw [readProp_writeProp_ne_key _ _ _ _ _ _ (by decide)] at hp
                    exact (base2 h2 hp hl).elim
              · exact ih
          · exact ih

/-- Through `_handle_move` as a whole: an agent starting on positive
numeric health that ends the move on health `≤ 0` leaves the session
marked "failed" (only the hazard branch lowers health, and it sets
"failed" exactly when the new health is nonpositive). -/
theorem handle_move_health_status (s : GameSession) (bus : EventBus) (params : PDict)
    (agent : Entity) (h h2 : ℚ)
    (hmem : eget s.state.entities s.agent_id = Option.some agent)
    (hh : dget agent.properties "health" = Option.some (PValue.num h)) (h0 : 0 < h) :
    readProp (handle_move s bus params).1.state.entities s.agent_id "health" =
      Option.some (PValue.num h2) → h2 ≤ 0 →
    (handle_move s bus params).1.status = "failed" := by
  have base : ∀ h3 : ℚ, readProp s.state.entities s.agent_id "health" =
      Option.some (PValue.num h3) → h3 ≤ 0 → False := by
    intro h3 hp hl
    rw [readProp_of_eget s agent _ hmem, hh] at hp
    have := num_some_inj hp
    linarith
  simp only [handle_move]
  split
  · exact fun hp hl => (base h2 hp hl).elim
  · split
    · rename_i heq
      rw [hmem] at heq
      exact Option.noConfusion heq
    · rename_i ag heq
      rw [hmem] at heq
      injection heq with hag
      subst hag
      split
      · exact fun hp hl => (base h2 hp hl).elim
      · rename_i md hmd
        split
        · exact fun hp hl => (base h2 hp hl).elim
        · exact fun hp hl => (base h2 hp hl).elim
        · rename_i hbc
          split
          · rename_i s2 bus2 out heq
            have hs2 := congrArg Prod.fst heq
            dsimp only at hs2
            intro hp hl
            rw [← hs2] at hp ⊢
            exact (moveScan_health s bus agent _ _ s.state.entities hmem h hh h0).2 h2 hp hl
          · rename_i s2 bus2 heq
            have hs2 := congrArg Prod.fst heq
            dsimp only at hs2
            have hn := congrArg (fun t : GameSession × EventBus × Option HOut => t.2.2) heq
            dsimp only at hn
            have hss : s2 = s := by
              rw [← hs2]
              exact (moveScan_health s bus agent _ _ s.state.entities hmem h hh h0).1 hn
            subst hss
            intro hp hl
            dsimp only at hp
            unfold readProp at hp
            rw [eget_eset_self] at hp
            dsimp only at hp
            rw [hh] at hp
            have := num_some_inj hp
            linarith

/-- `_handle_steal` never assigns `self.status`: whatever branch runs,
the session status after the call equals the status before. -/
theorem handle_steal_keeps_status (s : GameSession) (bus : EventBus) (params : PDict)
    (roll : ℚ) : (handle_steal s bus params roll).1.status = s.status := by
  simp only [handle_steal, GameSession.logEvent, log_event_fst]
  repeat' split
  all_goals rfl

/-- The only write `_handle_steal` ever makes to the agent's `health`
property is the failure branch's `max(0, health - 20)`: after the call the
agent's health is either what it was before, or a nonnegative number. -/
theorem handle_steal_health_clamped (s : GameSession) (bus : EventBus) (params : PDict)
    (roll : ℚ) (h2 : ℚ)
    (hp : readProp (handle_steal s bus params roll).1.state.entities s.agent_id "health" =
      Option.some (PValue.num h2)) :
    readProp s.state.entities s.agent_id "health" = Option.some (PValue.num h2) ∨ 0 ≤ h2 := by
  simp only [handle_steal, GameSession.logEvent, log_event_fst] at hp
  repeat' split at hp
  all_goals first
    | exact Or.inl hp
    | (dsimp only at hp
       first
        | exact Or.inl hp
        | (rw [readProp_writeProp_ne_key _ _ _ _ _ _ (by decide)] at hp
           first
            | exact Or.inl hp
            | (rw [readProp_writeProp_ne_key _ _ _ _ _ _ (by decide)] at hp
               exact Or.inl hp))
        | (rw [readProp_writeProp_self _ _ _ _ _ (by assumption)] at hp
           exact Or.inr (num_some_inj hp ▸ le_max_left 0 _)))

/-- **C1** (amended): the "health ≤ 0 ⇒ status failed" invariant holds for
`move` — if the agent starts a move on positive numeric health and the
post-state shows health ≤ 0, the session status is "failed" — but NOT as
stated for `steal`: `_handle_steal` never touches the session status, and
its failure branch clamps health at `max(0, health − 20)`, so a failed
steal can bring health to exactly 0 while the session stays in its
previous status. -/
theorem C1_health_zero_forces_failed (s : GameSession) (bus : EventBus) (params : PDict)
    (roll : ℚ) (agent : Entity) (h : ℚ)
    (hmem : eget s.state.entities s.agent_id = Option.some agent)
    (hh : dget agent.properties "health" = Option.some (PValue.num h)) (h0 : 0 < h) :
    (∀ h2, readProp (handle_move s bus params).1.state.entities s.agent_id "health" =
        Option.some (PValue.num h2) → h2 ≤ 0 →
      (handle_move s bus params).1.status = "failed") ∧
    (handle_steal s bus params roll).1.status = s.status ∧
    (∀ h2, readProp (handle_steal s bus params roll).1.state.entities s.agent_id "health" =
        Option.some (PValue.num h2) →
      readProp s.state.entities s.agent_id "health" = Option.some (PValue.num h2) ∨ 0 ≤ h2) :=
  ⟨fun h2 => handle_move_health_status s bus params agent h h2 hmem hh h0,
   handle_steal_keeps_status s bus params roll,
   fun h2 hp => handle_steal_health_clamped s bus params roll h2 hp⟩

/-- C1 counterexample fixture: the player, on 20 health. -/
def C1player : Entity :=
  ⟨"player", "agent", 0, 0, [("health", PValue.num 20)]⟩

/-- C1 counterexample fixture: a store with one gem in stock. -/
def C1store : Entity :=
  ⟨"store1", "store", 5, 5,
   [("inventory", PValue.dict
      [("gem_01", PValue.dict [("name", PValue.str "Gem"), ("value", PValue.num 10)])])]⟩

/-- C1 counterexample fixture: the world holding the two entities. -/
def C1state : GameState :=
  ⟨0, [("player", C1player), ("store1", C1store)], [], [], Option.none⟩

/-- C1 counterexample fixture: an in-progress session at turn 0. -/
def C1sess : GameSession :=
  ⟨"g1", "player", "in_progress", 0, C1state, [], ⟨50, 400, 300⟩, false⟩

/-- C1 counterexample fixture: the steal parameters. -/
def C1params : PDict :=
  [("store_id", PValue.str "store1"), ("item_id", PValue.str "gem_01")]

/-- C1 counterexample: with no guard nearby the success chance is 7/10, so
the roll 9/10 makes the steal fail; the player's health drops 20 → 0, yet
the session status is still "in_progress", not "failed" — refuting
"health ≤ 0 in the post-state implies status failed" for steal. -/
theorem C1_counterexample :
    (C1sess.process_action EventBus.empty "steal" C1params (9/10)).success = false ∧
    readProp (C1sess.process_action EventBus.empty "steal" C1params (9/10)).sess.state.entities
      "player" "health" = Option.some (PValue.num 0) ∧
    (C1sess.process_action EventBus.empty "steal" C1params (9/10)).sess.status = "in_progress" ∧
    ¬ (C1sess.process_action EventBus.empty "steal" C1params (9/10)).sess.status = "failed" := by
  refine ⟨?_, ?_, ?_, ?_⟩ <;>
    norm_num +decide [C1sess, C1state, C1player, C1store, C1params,
      GameSession.process_action, handledVerbs, handle_steal, resolve_npc,
      GameSession.logEvent, GameState.log_event, dget, dgetD, dgetPy, dset,
      pyTruthy, pyOr, dictLookupPy, eget, eset, writeProp, readProp, distLt,
      pvEqStr, asNum, EventBus.publish, Option.getD, pvStr]

/-- C1 witness: at the concrete steal fixture the hypotheses of the C1
theorem hold (the player is in the map with positive numeric health 20)
and the steal part of its conclusion applies: the handler keeps the
session status. -/
theorem C1_health_zero_forces_failed_witness :
    eget C1sess.state.entities C1sess.agent_id = Option.some C1player ∧
    dget C1player.properties "health" = Option.some (PValue.num 20) ∧
    (0 : ℚ) < 20 ∧
    (handle_steal C1sess EventBus.empty C1params (9/10)).1.status = C1sess.status :=
  ⟨rfl, rfl, by norm_num,
   (C1_health_zero_forces_failed C1sess EventBus.empty C1params (9/10) C1player 20
      rfl rfl (by norm_num)).2.1⟩
